import Mathlib

/-!
# REST handlers of `clinic-go` and `myproject`

A shallow embedding of the HTTP handlers of the two services of the repository
(`src/clinic-go/clinic-go/main.go`, an echo service over six tables plus a login
endpoint, and `src/myproject/main.go`, a gin service over the `persons` table),
followed by theorems about their request/response contract.

A handler is embedded as an `Action`: a tree whose leaves carry the response that
is written (together with the lines sent to the process log) and whose inner nodes
are the database calls the handler makes (`db.Query`, `db.QueryRow(..).Scan`,
`db.Exec`), each with the continuation that consumes the database's answer.  The
database itself is external to the repository; it appears only through the
answers it gives.
-/

namespace RestApi

/-! ## Go values shared by both services -/

deriving instance DecidableEq for Except

/-- Go `error` values as the handlers observe them: the sentinel `sql.ErrNoRows`
(compared by identity with `==`) or any other error, carrying the text its
`Error()` method returns. -/
inductive GoError
  | ErrNoRows
  | other (text : String)
  deriving DecidableEq, Repr

/-- The `Error()` method. -/
def GoError.Error : GoError → String
  | .ErrNoRows => "sql: no rows in result set"
  | .other text => text

/-- A Go `float64` that is only stored and copied by the handlers, kept as its
IEEE-754 bit pattern (the handlers never compute with it). -/
structure float64 where
  bits : Nat
  deriving DecidableEq, Repr

/-- A `time.Time` as returned by `time.Now()`, in nanoseconds since the epoch. -/
structure Time where
  unixNano : Int
  deriving DecidableEq, Repr

/-- Conversion `uint(id)` of a 64-bit signed integer: reduction modulo `2^64`. -/
def uint (n : Int) : Nat := (n % (2 ^ 64 : Int)).toNat

/-- Go slices as `encoding/json` distinguishes them: the nil slice (declared with
`var xs []T`) and a non-nil slice (from `make([]T, 0)` or `append`). -/
inductive Slice (α : Type)
  | nilSlice
  | ofList (elems : List α)
  deriving DecidableEq, Repr

/-- The elements of a slice, in order. -/
def Slice.toList {α : Type} : Slice α → List α
  | .nilSlice => []
  | .ofList elems => elems

/-- Go `append(xs, x)`: the result is never nil. -/
def Slice.append {α : Type} (xs : Slice α) (x : α) : Slice α :=
  .ofList (xs.toList ++ [x])

/-- Go `make([]T, 0)`: an empty slice that is not nil. -/
def Slice.make {α : Type} : Slice α := .ofList []

/-! ## JSON values -/

/-- JSON documents written by `c.JSON`. -/
inductive Json
  | null
  | num (n : Int)
  | float (f : float64)
  | str (s : String)
  | arr (elems : List Json)
  | obj (members : List (String × Json))

/-- Encoding of a slice by `encoding/json`: a nil slice is written as `null`, any
other slice as an array of its encoded elements. -/
def Slice.toJson {α : Type} (enc : α → Json) : Slice α → Json
  | .nilSlice => .null
  | .ofList elems => .arr (elems.map enc)

/-- A member of a JSON object for a string field tagged `omitempty`: left out
when the string is empty. -/
def omitempty (key : String) (value : String) : List (String × Json) :=
  if value = "" then [] else [(key, .str value)]

/-! ## HTTP responses -/

/-- Body of a response: plain text (`c.String`), a JSON document (`c.JSON`) or
nothing (`c.NoContent`). -/
inductive Body
  | text (s : String)
  | json (j : Json)
  | empty

/-- Status code and body written to the client. -/
structure Response where
  status : Nat
  body : Body

/-- What a handler leaves behind: the response, the lines written with
`log.Println` and the lines written with `fmt.Println`. -/
structure Outcome where
  resp : Response
  log : List String
  stdout : List String

abbrev StatusOK : Nat := 200
abbrev StatusCreated : Nat := 201
abbrev StatusNoContent : Nat := 204
abbrev StatusBadRequest : Nat := 400
abbrev StatusUnauthorized : Nat := 401
abbrev StatusNotFound : Nat := 404
abbrev StatusInternalServerError : Nat := 500

/-- Text of one `Println` call: the operands separated by single spaces. -/
def Println (operands : List String) : String := " ".intercalate operands

/-! ## Go strings -/

/-- The bytes of a Go string: the UTF-8 encoding of its characters. -/
def bytes (s : String) : List Nat :=
  s.data.flatMap fun ch => (String.utf8EncodeChar ch).map UInt8.toNat

/-- Lexicographic comparison of two byte sequences: is the first one strictly
smaller. -/
def bytesLess : List Nat → List Nat → Bool
  | _, [] => false
  | [], _ :: _ => true
  | a :: as, b :: bs =>
    if a < b then true else if b < a then false else bytesLess as bs

/-- The operator `<` of Go on strings: byte-wise lexicographic comparison. -/
def stringLess (a b : String) : Bool := bytesLess (bytes a) (bytes b)

/-! ## `strconv.Atoi` -/

/-- Value of an ASCII decimal digit. -/
def digitVal (ch : Char) : Option Nat :=
  if '0' ≤ ch ∧ ch ≤ '9' then some (ch.toNat - '0'.toNat) else none

/-- Left-to-right accumulation of decimal digits; `none` at the first character
that is not a digit. -/
def parseDigits : List Char → Nat → Option Nat
  | [], n => some n
  | ch :: rest, n =>
    match digitVal ch with
    | none => none
    | some d => parseDigits rest (n * 10 + d)

/-- Model of `strconv.Atoi` of the Go standard library on a 64-bit platform: an
optional sign followed by at least one decimal digit, within the range of `int`;
anything else is an error. -/
def Atoi (s : String) : Except GoError Int :=
  let syntaxError : Except GoError Int := .error (.other "strconv.Atoi: invalid syntax")
  let rangeError : Except GoError Int := .error (.other "strconv.Atoi: value out of range")
  match s.data with
  | [] => syntaxError
  | ch :: rest =>
    if ch = '-' then
      if rest = [] then syntaxError
      else match parseDigits rest 0 with
        | none => syntaxError
        | some n => if n ≤ 2 ^ 63 then .ok (-(n : Int)) else rangeError
    else if ch = '+' then
      if rest = [] then syntaxError
      else match parseDigits rest 0 with
        | none => syntaxError
        | some n => if n < 2 ^ 63 then .ok (n : Int) else rangeError
    else match parseDigits (ch :: rest) 0 with
      | none => syntaxError
      | some n => if n < 2 ^ 63 then .ok (n : Int) else rangeError

/-! ## `database/sql` -/

/-- SQL statements of the handlers, by shape.  The text of the source is
recovered by `Stmt.text`; every `?` placeholder is bound positionally to the
arguments passed next to the statement. -/
inductive Stmt
  | select (columns : List String) (table : String) (whereColumn : Option String)
  | insert (table : String) (columns : List String)
  | update (table : String) (columns : List String) (whereColumn : String)
  | delete (table : String) (whereColumn : String)
  deriving DecidableEq, Repr

/-- The SQL text of a statement, as written in the source. -/
def Stmt.text : Stmt → String
  | .select columns table none =>
    "SELECT " ++ ", ".intercalate columns ++ " FROM " ++ table
  | .select columns table (some w) =>
    "SELECT " ++ ", ".intercalate columns ++ " FROM " ++ table ++ " WHERE " ++ w ++ " = ?"
  | .insert table columns =>
    "INSERT INTO " ++ table ++ " (" ++ ", ".intercalate columns ++ ") VALUES ("
      ++ ", ".intercalate (columns.map fun _ => "?") ++ ")"
  | .update table columns w =>
    "UPDATE " ++ table ++ " SET " ++ ", ".intercalate (columns.map fun col => col ++ " = ?")
      ++ " WHERE " ++ w ++ " = ?"
  | .delete table w =>
    "DELETE FROM " ++ table ++ " WHERE " ++ w ++ " = ?"

/-- Arguments bound to the placeholders of a statement, with their Go type. -/
inductive SqlArg
  | int (n : Int)
  | uint (n : Nat)
  | string (s : String)
  | float64 (f : float64)
  | time (t : Time)
  deriving DecidableEq, Repr

/-- The `sql.Result` of a successful `db.Exec`: what `LastInsertId()` and
`RowsAffected()` return, each a value and an optional error. -/
structure Result where
  LastInsertId : Int × Option GoError
  RowsAffected : Int × Option GoError
  deriving DecidableEq, Repr

/-- A handler as a tree of database calls.

* `done a`: the handler returns with `a`;
* `Query q args k`: `db.Query(q, args...)`, answered with an error or with the
  rows that `rows.Next()` yields, each given as the outcome of `rows.Scan` into
  the handler's record type;
* `QueryRow q args k`: `db.QueryRow(q, args...).Scan(...)`, answered with the
  scanned record or the error of `Scan` (`sql.ErrNoRows` when no row matches);
* `Exec q args k`: `db.Exec(q, args...)`, answered with a `sql.Result` or an
  error. -/
inductive Action (ρ : Type) (α : Type)
  | done (a : α)
  | Query (q : Stmt) (args : List SqlArg)
      (k : Except GoError (List (Except GoError ρ)) → Action ρ α)
  | QueryRow (q : Stmt) (args : List SqlArg) (k : Except GoError ρ → Action ρ α)
  | Exec (q : Stmt) (args : List SqlArg) (k : Except GoError Result → Action ρ α)

/-- One answer of the database to a call of a handler. -/
inductive Answer (ρ : Type)
  | rows (r : Except GoError (List (Except GoError ρ)))
  | row (r : Except GoError ρ)
  | result (r : Except GoError Result)

/-- A statement as sent to the database: shape and bound arguments. -/
abbrev Call := Stmt × List SqlArg

/-- Run a handler against the sequence of answers the database gives to its
calls, in order.  The result is what the handler returns together with the calls
it made; `none` when the answers do not fit the calls (too few, or of the wrong
kind). -/
def Action.run {ρ α : Type} : Action ρ α → List (Answer ρ) → Option (α × List Call)
  | .done a, _ => some (a, [])
  | .Query q args k, .rows r :: rest =>
    ((k r).run rest).map fun (a, calls) => (a, (q, args) :: calls)
  | .QueryRow q args k, .row r :: rest =>
    ((k r).run rest).map fun (a, calls) => (a, (q, args) :: calls)
  | .Exec q args k, .result r :: rest =>
    ((k r).run rest).map fun (a, calls) => (a, (q, args) :: calls)
  | _, _ => none

/-- A database with state `σ`: how each kind of call is answered in a state and
the state it leaves. -/
structure Database (σ : Type) (ρ : Type) where
  Query : σ → Stmt → List SqlArg → Except GoError (List (Except GoError ρ)) × σ
  QueryRow : σ → Stmt → List SqlArg → Except GoError ρ × σ
  Exec : σ → Stmt → List SqlArg → Except GoError Result × σ

/-- Execute a handler on a database in state `s`: what the handler returns, the
state afterwards and the calls made. -/
def Action.exec {σ ρ α : Type} (db : Database σ ρ) : Action ρ α → σ → α × σ × List Call
  | .done a, s => (a, s, [])
  | .Query q args k, s =>
    let (r, s1) := db.Query s q args
    let (a, s2, calls) := (k r).exec db s1
    (a, s2, (q, args) :: calls)
  | .QueryRow q args k, s =>
    let (r, s1) := db.QueryRow s q args
    let (a, s2, calls) := (k r).exec db s1
    (a, s2, (q, args) :: calls)
  | .Exec q args k, s =>
    let (r, s1) := db.Exec s q args
    let (a, s2, calls) := (k r).exec db s1
    (a, s2, (q, args) :: calls)

/-- The response a handler writes when the database gives the answers
`answers`. -/
def Action.respond {ρ : Type} (a : Action ρ Outcome) (answers : List (Answer ρ)) :
    Option Response :=
  (a.run answers).map fun r => r.1.resp

/-- The SQL texts of the statements a handler issues when the database gives
the answers `answers`. -/
def Action.sql {ρ α : Type} (a : Action ρ α) (answers : List (Answer ρ)) :
    Option (List String) :=
  (a.run answers).map fun r => r.2.map fun call => call.1.text

/-- The statements a handler issues when the database gives the answers
`answers`. -/
def Action.calls {ρ α : Type} (a : Action ρ α) (answers : List (Answer ρ)) :
    Option (List Call) :=
  (a.run answers).map fun r => r.2

/-- A handler that answers with status 400 and a fixed text as a leaf of its
tree: it makes no database call, so that on every database the state is left as
it was and the list of issued statements is empty. -/
def Action.RejectsBeforeDatabase {ρ : Type} (a : Action ρ Outcome) : Prop :=
  (∃ msg, a = .done ⟨⟨StatusBadRequest, .text msg⟩, [], []⟩) ∧
    ∀ (σ : Type) (db : Database σ ρ) (s : σ), (a.exec db s).2 = (s, [])

/-- A handler that answers with status 400 as a leaf of its tree: it makes no
database call, so that on every database the state is left as it was and the
list of issued statements is empty. -/
def Action.BadRequestBeforeDatabase {ρ : Type} (a : Action ρ Outcome) : Prop :=
  (∃ out, a = .done out ∧ out.resp.status = StatusBadRequest) ∧
    ∀ (σ : Type) (db : Database σ ρ) (s : σ), (a.exec db s).2 = (s, [])

/-- An error value with the text of a database failure erased; the sentinel
`sql.ErrNoRows`, which stands for "no matching row", is kept apart. -/
def GoError.eraseText : GoError → GoError
  | .ErrNoRows => .ErrNoRows
  | .other _ => .other ""

/-- The outcome of a scan with the text of its error erased. -/
def eraseScanError {ρ : Type} : Except GoError ρ → Except GoError ρ
  | .ok record => .ok record
  | .error err => .error (err.eraseText)

/-- A `sql.Result` with the text of its errors erased. -/
def Result.eraseErrorText (r : Result) : Result :=
  ⟨(r.LastInsertId.1, r.LastInsertId.2.map GoError.eraseText),
    (r.RowsAffected.1, r.RowsAffected.2.map GoError.eraseText)⟩

/-- An answer of the database with the text of every error in it erased.  Two
answers with the same image differ only in the text of the errors the database
returned. -/
def Answer.eraseErrorText {ρ : Type} : Answer ρ → Answer ρ
  | .rows (.error err) => .rows (.error (err.eraseText))
  | .rows (.ok scans) => .rows (.ok (scans.map eraseScanError))
  | .row scan => .row (eraseScanError scan)
  | .result (.error err) => .result (.error (err.eraseText))
  | .result (.ok res) => .result (.ok res.eraseErrorText)

/-- The scan loop of the list handlers that give up at the first failing row
(`getAllTransactions` and `getSortedPersons`): `for rows.Next()` scans the row; on
an error the handler returns at once with that error, otherwise the record is
appended. -/
def scanAll {ρ : Type} : List (Except GoError ρ) → Slice ρ → Except GoError (Slice ρ)
  | [], acc => .ok acc
  | .error err :: _, _ => .error err
  | .ok record :: rows, acc => scanAll rows (acc.append record)

/-! ## The persisted state -/

/-- A stored row: the values of its columns, by name; a column without an entry
is NULL. -/
abbrev Row := List (String × SqlArg)

/-- Modelled from the spec: the persisted state, one relational table per entity,
as a set of rows keyed by the column `id`.  The schema is external to the
repository; a table carries the part of it the statements depend on: its name, its
columns, the values it gives the columns an INSERT leaves out, and the next value
of its auto-increment id.  The rows are kept in insertion order. -/
structure Table where
  name : String
  columns : List String
  defaults : Row
  rows : List Row
  nextID : Int
  deriving DecidableEq, Repr

/-- The rows of a table form a set keyed by `id`: no two rows have the same id,
and the ids the table has assigned so far are below the next one, which is a
non-negative 64-bit integer. -/
def Table.Keyed (t : Table) : Prop :=
  (t.rows.map fun row => row.lookup "id").Nodup ∧
    (∀ row ∈ t.rows, ∀ n, row.lookup "id" = some (.int n) → n < t.nextID) ∧
    0 ≤ t.nextID ∧ t.nextID < 2 ^ 63

/-- Does a row have the value `v` in column `w`. -/
def Row.has (w : String) (v : SqlArg) (row : Row) : Bool := row.lookup w == some v

/-- Modelled from the spec: `INSERT INTO t (columns) VALUES (args)`.  A row
without a value for `id` gets the next auto-increment id, which is reported as
the last-insert id; a row whose id is already in the table is refused (the
primary key); the columns left out get the defaults of the schema. -/
def Table.insert (t : Table) (columns : List String) (args : List SqlArg) :
    Except GoError Result × Table :=
  if columns.length ≠ args.length ∨ ¬ columns.all (fun col => col ∈ t.columns) then
    (.error (.other "Error 1054: Unknown column"), t)
  else
    let given : Row := columns.zip args
    match given.lookup "id" with
    | some id =>
      if t.rows.any (Row.has "id" id) then
        (.error (.other "Error 1062: Duplicate entry for key PRIMARY"), t)
      else
        (.ok ⟨(0, none), (1, none)⟩, { t with rows := t.rows ++ [given ++ t.defaults] })
    | none =>
      if t.rows.any (Row.has "id" (.int t.nextID)) then
        (.error (.other "Error 1062: Duplicate entry for key PRIMARY"), t)
      else
        (.ok ⟨(t.nextID, none), (1, none)⟩,
          { t with
            rows := t.rows ++ [("id", .int t.nextID) :: given ++ t.defaults]
            nextID := t.nextID + 1 })

/-- Modelled from the spec: `UPDATE t SET columns = args WHERE w = v`, the value
`v` being the last argument: every row with that value gets the new values. -/
def Table.update (t : Table) (columns : List String) (w : String) (args : List SqlArg) :
    Except GoError Result × Table :=
  if args.length ≠ columns.length + 1 ∨ ¬ (w :: columns).all (fun col => col ∈ t.columns) then
    (.error (.other "Error 1054: Unknown column"), t)
  else
    match args.getLast? with
    | none => (.error (.other "Error 1054: Unknown column"), t)
    | some v =>
      (.ok ⟨(0, none), ((t.rows.filter (Row.has w v)).length, none)⟩,
        { t with
          rows := t.rows.map fun row =>
            if Row.has w v row then columns.zip args ++ row else row })

/-- Modelled from the spec: `DELETE FROM t WHERE w = v`: every row with that value
is removed; the rows affected are those removed. -/
def Table.delete (t : Table) (w : String) (args : List SqlArg) :
    Except GoError Result × Table :=
  match args with
  | [v] =>
    if w ∈ t.columns then
      (.ok ⟨(0, none), ((t.rows.filter (Row.has w v)).length, none)⟩,
        { t with rows := t.rows.filter fun row => !Row.has w v row })
    else (.error (.other "Error 1054: Unknown column"), t)
  | _ => (.error (.other "sql: wrong number of arguments"), t)

/-- The values a SELECT of `columns` hands to `Scan` for a row. -/
def Row.project (columns : List String) (row : Row) : List (Option SqlArg) :=
  columns.map fun col => row.lookup col

/-- Modelled from the spec: a SELECT of all rows of the table, each row handed to
`scan`, the `Scan` call of the handler. -/
def Table.query {ρ : Type} (scan : List (Option SqlArg) → Except GoError ρ) (t : Table)
    (q : Stmt) (args : List SqlArg) : Except GoError (List (Except GoError ρ)) × Table :=
  match q, args with
  | .select columns name none, [] =>
    if name = t.name ∧ columns.all (fun col => col ∈ t.columns) then
      (.ok (t.rows.map fun row => scan (row.project columns)), t)
    else (.error (.other "Error 1146: Table or column does not exist"), t)
  | _, _ => (.error (.other "sql: statement is not a query of all rows"), t)

/-- Modelled from the spec: a SELECT of the row with a given value in a column,
handed to `scan`; `sql.ErrNoRows` when no row matches. -/
def Table.queryRow {ρ : Type} (scan : List (Option SqlArg) → Except GoError ρ) (t : Table)
    (q : Stmt) (args : List SqlArg) : Except GoError ρ × Table :=
  match q, args with
  | .select columns name (some w), [v] =>
    if name = t.name ∧ (w :: columns).all (fun col => col ∈ t.columns) then
      match t.rows.find? (Row.has w v) with
      | none => (.error .ErrNoRows, t)
      | some row => (scan (row.project columns), t)
    else (.error (.other "Error 1146: Table or column does not exist"), t)
  | _, _ => (.error (.other "sql: statement is not a query of one row"), t)

/-- Modelled from the spec: the execution of an INSERT, UPDATE or DELETE on the
table; a statement on another table is an error. -/
def Table.exec (t : Table) (q : Stmt) (args : List SqlArg) : Except GoError Result × Table :=
  match q with
  | .insert name columns =>
    if name = t.name then t.insert columns args
    else (.error (.other "Error 1146: Table does not exist"), t)
  | .update name columns w =>
    if name = t.name then t.update columns w args
    else (.error (.other "Error 1146: Table does not exist"), t)
  | .delete name w =>
    if name = t.name then t.delete w args
    else (.error (.other "Error 1146: Table does not exist"), t)
  | .select _ _ _ => (.error (.other "sql: statement is a query"), t)

/-- Modelled from the spec: the database behind a handler, holding the table of
the handler's entity. -/
def tableDatabase {ρ : Type} (scan : List (Option SqlArg) → Except GoError ρ) :
    Database Table ρ :=
  ⟨Table.query scan, Table.queryRow scan, Table.exec⟩

/-! ## `Scan` -/

/-- Model of `Scan` of `database/sql` into a `*string`, for the values the tables
hold: a string as it is, a time as the driver formats it; NULL is an error. -/
def scanString (formatTime : Time → String) : Option SqlArg → Except GoError String
  | some (.string s) => .ok s
  | some (.time t) => .ok (formatTime t)
  | _ => .error (.other "sql: Scan error: unsupported conversion to string")

/-- Model of `Scan` into a `*uint`: an integer that is not negative. -/
def scanUint : Option SqlArg → Except GoError Nat
  | some (.uint n) => .ok n
  | some (.int n) => if 0 ≤ n then .ok n.toNat else
      .error (.other "sql: Scan error: value out of range")
  | _ => .error (.other "sql: Scan error: unsupported conversion to uint")

/-- Model of `Scan` into a `*int`. -/
def scanInt : Option SqlArg → Except GoError Int
  | some (.int n) => .ok n
  | some (.uint n) => .ok n
  | _ => .error (.other "sql: Scan error: unsupported conversion to int")

/-- Model of `Scan` into a `*float64`. -/
def scanFloat64 : Option SqlArg → Except GoError float64
  | some (.float64 f) => .ok f
  | _ => .error (.other "sql: Scan error: unsupported conversion to float64")

/-! ## `clinic-go`: records -/

namespace ClinicGo

/-- The part of `echo.Context` the handlers use: the path parameters and the
outcome of `c.Bind` into the handler's record type. -/
structure Context (β : Type) where
  Param : String → String
  Bind : Except GoError β

/-- Response of `c.String(code, s)`. -/
def Context.String {β : Type} (_c : Context β) (code : Nat) (s : String) : Response :=
  ⟨code, .text s⟩

/-- Response of `c.JSON(code, v)`, with `v` already encoded. -/
def Context.JSON {β : Type} (_c : Context β) (code : Nat) (v : Json) : Response :=
  ⟨code, .json v⟩

/-- Response of `c.NoContent(code)`. -/
def Context.NoContent {β : Type} (_c : Context β) (code : Nat) : Response :=
  ⟨code, .empty⟩

/-- Record `User`. -/
structure User where
  ID : Nat
  Name : String
  Email : String
  CreatedAt : String
  UpdatedAt : String
  deriving DecidableEq, Repr

/-- Record `PatientAppointment`. -/
structure PatientAppointment where
  ID : Nat
  PatientID : Nat
  UserID : Int
  AppointmentDate : String
  Notes : String
  Prescription : String
  Status : String
  CreatedAt : String
  UpdatedAt : String
  deriving DecidableEq, Repr

/-- Record `Drug`. -/
structure Drug where
  ID : Nat
  DrugName : String
  DrugType : String
  Description : String
  Composition : String
  Packaging : String
  Dosage : String
  Contraindications : String
  SideEffects : String
  Price : float64
  Currency : String
  ExpirationDate : String
  CreatedAt : String
  UpdatedAt : String
  deriving DecidableEq, Repr

/-- Record `Patient`. -/
structure Patient where
  ID : Nat
  Nik : String
  Name : String
  Gender : String
  DateOfBirth : String
  Address : String
  Password : String
  CreatedAt : String
  UpdatedAt : String
  deriving DecidableEq, Repr

/-- Record `Doctor`. -/
structure Doctor where
  ID : Int
  UserID : Int
  Specialization : String
  CreatedAt : String
  UpdatedAt : String
  ProfilePhotoPath : String
  deriving DecidableEq, Repr

/-- Record `Transaction`. -/
structure Transaction where
  ID : Nat
  PatientID : Nat
  DrugID : Nat
  Quantity : float64
  TotalPrice : float64
  Currency : String
  Prescription : String
  CreatedAt : String
  UpdatedAt : String
  deriving DecidableEq, Repr

/-- The login request body. -/
structure Credentials where
  Nik : String
  Password : String
  deriving DecidableEq, Repr

/-- JSON encoding of a `User`, by its field tags. -/
def User.toJson (u : User) : Json :=
  .obj [("id", .num u.ID), ("name", .str u.Name), ("email", .str u.Email),
    ("created_at", .str u.CreatedAt), ("updated_at", .str u.UpdatedAt)]

/-- JSON encoding of a `PatientAppointment`, by its field tags. -/
def PatientAppointment.toJson (a : PatientAppointment) : Json :=
  .obj [("id", .num a.ID), ("patient_id", .num a.PatientID), ("user_id", .num a.UserID),
    ("appointment_date", .str a.AppointmentDate), ("notes", .str a.Notes),
    ("prescription", .str a.Prescription), ("status", .str a.Status),
    ("created_at", .str a.CreatedAt), ("updated_at", .str a.UpdatedAt)]

/-- JSON encoding of a `Drug`, by its field tags; the fields tagged `omitempty`
are left out when empty. -/
def Drug.toJson (d : Drug) : Json :=
  .obj ([("id", .num d.ID), ("drug_name", .str d.DrugName), ("drug_type", .str d.DrugType)]
    ++ omitempty "description" d.Description
    ++ omitempty "composition" d.Composition
    ++ omitempty "packaging" d.Packaging
    ++ omitempty "dosage" d.Dosage
    ++ omitempty "contraindications" d.Contraindications
    ++ omitempty "side_effects" d.SideEffects
    ++ [("price", .float d.Price), ("currency", .str d.Currency)]
    ++ omitempty "expiration_date" d.ExpirationDate
    ++ [("created_at", .str d.CreatedAt), ("updated_at", .str d.UpdatedAt)])

/-- JSON encoding of a `Patient`, by its field tags. -/
def Patient.toJson (p : Patient) : Json :=
  .obj [("id", .num p.ID), ("nik", .str p.Nik), ("name", .str p.Name),
    ("gender", .str p.Gender), ("date_of_birth", .str p.DateOfBirth),
    ("address", .str p.Address), ("password", .str p.Password),
    ("created_at", .str p.CreatedAt), ("updated_at", .str p.UpdatedAt)]

/-- JSON encoding of a `Doctor`, by its field tags. -/
def Doctor.toJson (d : Doctor) : Json :=
  .obj [("id", .num d.ID), ("user_id", .num d.UserID),
    ("specialization", .str d.Specialization), ("created_at", .str d.CreatedAt),
    ("updated_at", .str d.UpdatedAt), ("profile_photo_path", .str d.ProfilePhotoPath)]

/-- JSON encoding of a `Transaction`, by its field tags. -/
def Transaction.toJson (t : Transaction) : Json :=
  .obj [("id", .num t.ID), ("patient_id", .num t.PatientID), ("drug_id", .num t.DrugID),
    ("quantity", .float t.Quantity), ("total_price", .float t.TotalPrice),
    ("currency", .str t.Currency), ("prescription", .str t.Prescription),
    ("created_at", .str t.CreatedAt), ("updated_at", .str t.UpdatedAt)]

/-- How `fmt.Println` prints a `Doctor`: the fields between braces, separated
by spaces. -/
def Doctor.format (d : Doctor) : String :=
  "\x7b" ++ " ".intercalate [toString d.ID, toString d.UserID, d.Specialization,
    d.CreatedAt, d.UpdatedAt, d.ProfilePhotoPath] ++ "\x7d"

/-- How `fmt.Println` prints a slice of doctors: the elements between brackets,
separated by spaces. -/
def formatDoctors (doctors : Slice Doctor) : String :=
  "[" ++ " ".intercalate (doctors.toList.map Doctor.format) ++ "]"

/-- The scan loop shared by the list handlers of users, appointments, drugs,
patients and doctors:
`for rows.Next()` scans the row; on an error it logs `msg` with the error and
continues with the next row, otherwise it appends the record. -/
def scanSkipping {ρ : Type} (msg : String) :
    List (Except GoError ρ) → Slice ρ → List String → Slice ρ × List String
  | [], acc, log => (acc, log)
  | .error err :: rows, acc, log =>
    scanSkipping msg rows acc (log ++ [Println [msg, err.Error]])
  | .ok record :: rows, acc, log =>
    scanSkipping msg rows (acc.append record) log

/-! ## `clinic-go`: handlers of `users` -/

/-- Handler `getUsers`. -/
def getUsers {β : Type} (c : Context β) : Action User Outcome :=
  .Query (.select ["id", "name", "email", "created_at", "updated_at"] "users" none) [] fun
    | .error err =>
      .done ⟨c.String StatusInternalServerError "Failed to get users",
        [Println ["Error querying users:", err.Error]], []⟩
    | .ok rows =>
      let scanned := scanSkipping "Error scanning user row:" rows Slice.make []
      .done ⟨c.JSON StatusOK (scanned.1.toJson User.toJson), scanned.2, []⟩

/-- Handler `getUser`. -/
def getUser {β : Type} (c : Context β) : Action User Outcome :=
  match Atoi (c.Param "id") with
  | .error _ => .done ⟨c.String StatusBadRequest "Invalid user ID", [], []⟩
  | .ok id =>
    .QueryRow (.select ["id", "name", "email", "created_at", "updated_at"] "users" (some "id"))
      [.int id] fun
      | .error err =>
        if err = .ErrNoRows then
          .done ⟨c.String StatusNotFound "User not found", [], []⟩
        else
          .done ⟨c.String StatusInternalServerError "Failed to get user",
            [Println ["Error getting user:", err.Error]], []⟩
      | .ok user => .done ⟨c.JSON StatusOK user.toJson, [], []⟩

/-- Handler `createUser`. -/
def createUser (c : Context User) : Action User Outcome :=
  match c.Bind with
  | .error _ => .done ⟨c.String StatusBadRequest "Invalid request payload", [], []⟩
  | .ok user =>
    .Exec (.insert "users" ["name", "email"])
      [.string user.Name, .string user.Email] fun
      | .error err =>
        .done ⟨c.String StatusInternalServerError "Failed to insert user",
          [Println ["Error inserting user:", err.Error]], []⟩
      | .ok result =>
        match result.LastInsertId with
        | (_, some err) =>
          .done ⟨c.String StatusInternalServerError "Failed to get last insert ID",
            [Println ["Error getting last insert ID:", err.Error]], []⟩
        | (id, none) =>
          .done ⟨c.JSON StatusCreated ({ user with ID := uint id } : User).toJson, [], []⟩

/-- Handler `updateUser`. -/
def updateUser (c : Context User) : Action User Outcome :=
  match Atoi (c.Param "id") with
  | .error _ => .done ⟨c.String StatusBadRequest "Invalid user ID", [], []⟩
  | .ok id =>
    match c.Bind with
    | .error _ => .done ⟨c.String StatusBadRequest "Invalid request payload", [], []⟩
    | .ok user =>
      .Exec (.update "users" ["name", "email"] "id")
        [.string user.Name, .string user.Email, .int id] fun
        | .error err =>
          .done ⟨c.String StatusInternalServerError "Failed to update user",
            [Println ["Error updating user:", err.Error]], []⟩
        | .ok _ =>
          .done ⟨c.JSON StatusOK ({ user with ID := uint id } : User).toJson, [], []⟩

/-- Handler `deleteUser`. -/
def deleteUser {β : Type} (c : Context β) : Action User Outcome :=
  match Atoi (c.Param "id") with
  | .error _ => .done ⟨c.String StatusBadRequest "Invalid user ID", [], []⟩
  | .ok id =>
    .Exec (.delete "users" "id") [.int id] fun
      | .error err =>
        .done ⟨c.String StatusInternalServerError "Failed to delete user",
          [Println ["Error deleting user:", err.Error]], []⟩
      | .ok _ =>
        .done ⟨c.String StatusOK ("User with ID " ++ toString id ++ " deleted"), [], []⟩

/-! ## `clinic-go`: handlers of `patient_appointments` -/

/-- Handler `getAppointments`. -/
def getAppointments {β : Type} (c : Context β) : Action PatientAppointment Outcome :=
  .Query (.select ["id", "patient_id", "user_id", "appointment_date", "notes", "prescription",
    "status", "created_at", "updated_at"] "patient_appointments" none) [] fun
    | .error err =>
      .done ⟨c.String StatusInternalServerError "Failed to get appointments",
        [Println ["Error querying appointments:", err.Error]], []⟩
    | .ok rows =>
      let scanned := scanSkipping "Error scanning appointment row:" rows Slice.make []
      .done ⟨c.JSON StatusOK (scanned.1.toJson PatientAppointment.toJson), scanned.2, []⟩

/-- Handler `getAppointment`. -/
def getAppointment {β : Type} (c : Context β) : Action PatientAppointment Outcome :=
  match Atoi (c.Param "id") with
  | .error _ => .done ⟨c.String StatusBadRequest "Invalid appointment ID", [], []⟩
  | .ok id =>
    .QueryRow (.select ["id", "patient_id", "user_id", "appointment_date", "notes",
      "prescription", "status", "created_at", "updated_at"] "patient_appointments" (some "id"))
      [.int id] fun
      | .error err =>
        if err = .ErrNoRows then
          .done ⟨c.String StatusNotFound "Appointment not found", [], []⟩
        else
          .done ⟨c.String StatusInternalServerError "Failed to get appointment",
            [Println ["Error getting appointment:", err.Error]], []⟩
      | .ok appointment => .done ⟨c.JSON StatusOK appointment.toJson, [], []⟩

/-- Handler `createAppointment`. -/
def createAppointment (c : Context PatientAppointment) : Action PatientAppointment Outcome :=
  match c.Bind with
  | .error _ => .done ⟨c.String StatusBadRequest "Invalid request payload", [], []⟩
  | .ok appointment =>
    .Exec (.insert "patient_appointments" ["patient_id", "user_id", "appointment_date", "notes",
      "prescription", "status"])
      [.uint appointment.PatientID, .int appointment.UserID, .string
        appointment.AppointmentDate, .string appointment.Notes, .string
        appointment.Prescription, .string appointment.Status] fun
      | .error err =>
        .done ⟨c.String StatusInternalServerError "Failed to insert appointment",
          [Println ["Error inserting appointment:", err.Error]], []⟩
      | .ok result =>
        match result.LastInsertId with
        | (_, some err) =>
          .done ⟨c.String StatusInternalServerError "Failed to get last insert ID",
            [Println ["Error getting last insert ID:", err.Error]], []⟩
        | (id, none) =>
          .done ⟨c.JSON StatusCreated ({ appointment with ID := uint id } : PatientAppointment).toJson, [], []⟩

/-- Handler `updateAppointment`. -/
def updateAppointment (c : Context PatientAppointment) : Action PatientAppointment Outcome :=
  match Atoi (c.Param "id") with
  | .error _ => .done ⟨c.String StatusBadRequest "Invalid appointment ID", [], []⟩
  | .ok id =>
    match c.Bind with
    | .error _ => .done ⟨c.String StatusBadRequest "Invalid request payload", [], []⟩
    | .ok appointment =>
      .Exec (.update "patient_appointments" ["patient_id", "doctor_id", "appointment_date",
        "notes", "prescription", "status"] "id")
        [.uint appointment.PatientID, .int appointment.UserID, .string
          appointment.AppointmentDate, .string appointment.Notes, .string
          appointment.Prescription, .string appointment.Status, .int id] fun
        | .error err =>
          .done ⟨c.String StatusInternalServerError "Failed to update appointment",
            [Println ["Error updating appointment:", err.Error]], []⟩
        | .ok _ =>
          .done ⟨c.JSON StatusOK ({ appointment with ID := uint id } : PatientAppointment).toJson, [], []⟩

/-- Handler `deleteAppointment`. -/
def deleteAppointment {β : Type} (c : Context β) : Action PatientAppointment Outcome :=
  match Atoi (c.Param "id") with
  | .error _ => .done ⟨c.String StatusBadRequest "Invalid appointment ID", [], []⟩
  | .ok id =>
    .Exec (.delete "patient_appointments" "id") [.int id] fun
      | .error err =>
        .done ⟨c.String StatusInternalServerError "Failed to delete appointment",
          [Println ["Error deleting appointment:", err.Error]], []⟩
      | .ok _ =>
        .done ⟨c.String StatusOK ("Appointment with ID " ++ toString id ++ " deleted"), [], []⟩

/-! ## `clinic-go`: handlers of `drugs` -/

/-- Handler `getDrugs`. -/
def getDrugs {β : Type} (c : Context β) : Action Drug Outcome :=
  .Query (.select ["id", "drug_name", "drug_type", "description", "composition", "packaging",
    "dosage", "contraindications", "side_effects", "price", "currency", "expiration_date",
    "created_at", "updated_at"] "drugs" none) [] fun
    | .error err =>
      .done ⟨c.String StatusInternalServerError "Failed to get drugs",
        [Println ["Error querying drugs:", err.Error]], []⟩
    | .ok rows =>
      let scanned := scanSkipping "Error scanning drug row:" rows Slice.make []
      .done ⟨c.JSON StatusOK (scanned.1.toJson Drug.toJson), scanned.2, []⟩

/-- Handler `getDrug`. -/
def getDrug {β : Type} (c : Context β) : Action Drug Outcome :=
  match Atoi (c.Param "id") with
  | .error _ => .done ⟨c.String StatusBadRequest "Invalid drug ID", [], []⟩
  | .ok id =>
    .QueryRow (.select ["id", "drug_name", "drug_type", "description", "composition",
      "packaging", "dosage", "contraindications", "side_effects", "price", "currency",
      "expiration_date", "created_at", "updated_at"] "drugs" (some "id")) [.int id] fun
      | .error err =>
        if err = .ErrNoRows then
          .done ⟨c.String StatusNotFound "Drug not found", [], []⟩
        else
          .done ⟨c.String StatusInternalServerError "Failed to get drug",
            [Println ["Error getting drug:", err.Error]], []⟩
      | .ok drug => .done ⟨c.JSON StatusOK drug.toJson, [], []⟩

/-- Handler `createDrug`. -/
def createDrug (c : Context Drug) : Action Drug Outcome :=
  match c.Bind with
  | .error _ => .done ⟨c.String StatusBadRequest "Invalid request payload", [], []⟩
  | .ok drug =>
    .Exec (.insert "drugs" ["drug_name", "drug_type", "description", "composition", "packaging",
      "dosage", "contraindications", "side_effects", "price", "currency", "expiration_date"])
      [.string drug.DrugName, .string drug.DrugType, .string drug.Description, .string
        drug.Composition, .string drug.Packaging, .string drug.Dosage, .string
        drug.Contraindications, .string drug.SideEffects, .float64 drug.Price, .string
        drug.Currency, .string drug.ExpirationDate] fun
      | .error err =>
        .done ⟨c.String StatusInternalServerError "Failed to insert drug",
          [Println ["Error inserting drug:", err.Error]], []⟩
      | .ok result =>
        match result.LastInsertId with
        | (_, some err) =>
          .done ⟨c.String StatusInternalServerError "Failed to get last insert ID",
            [Println ["Error getting last insert ID:", err.Error]], []⟩
        | (id, none) =>
          .done ⟨c.JSON StatusCreated ({ drug with ID := uint id } : Drug).toJson, [], []⟩

/-- Handler `updateDrug`. -/
def updateDrug (c : Context Drug) : Action Drug Outcome :=
  match Atoi (c.Param "id") with
  | .error _ => .done ⟨c.String StatusBadRequest "Invalid drug ID", [], []⟩
  | .ok id =>
    match c.Bind with
    | .error _ => .done ⟨c.String StatusBadRequest "Invalid request payload", [], []⟩
    | .ok drug =>
      .Exec (.update "drugs" ["drug_name", "drug_type", "description", "composition",
        "packaging", "dosage", "contraindications", "side_effects", "price", "currency",
        "expiration_date"] "id")
        [.string drug.DrugName, .string drug.DrugType, .string drug.Description, .string
          drug.Composition, .string drug.Packaging, .string drug.Dosage, .string
          drug.Contraindications, .string drug.SideEffects, .float64 drug.Price, .string
          drug.Currency, .string drug.ExpirationDate, .int id] fun
        | .error err =>
          .done ⟨c.String StatusInternalServerError "Failed to update drug",
            [Println ["Error updating drug:", err.Error]], []⟩
        | .ok _ =>
          .done ⟨c.JSON StatusOK ({ drug with ID := uint id } : Drug).toJson, [], []⟩

/-- Handler `deleteDrug`. -/
def deleteDrug {β : Type} (c : Context β) : Action Drug Outcome :=
  match Atoi (c.Param "id") with
  | .error _ => .done ⟨c.String StatusBadRequest "Invalid drug ID", [], []⟩
  | .ok id =>
    .Exec (.delete "drugs" "id") [.int id] fun
      | .error err =>
        .done ⟨c.String StatusInternalServerError "Failed to delete drug",
          [Println ["Error deleting drug:", err.Error]], []⟩
      | .ok _ =>
        .done ⟨c.String StatusOK ("Drug with ID " ++ toString id ++ " deleted"), [], []⟩

/-! ## `clinic-go`: handlers of `patients` -/

/-- Handler `getPatients`. -/
def getPatients {β : Type} (c : Context β) : Action Patient Outcome :=
  .Query (.select ["id", "nik", "name", "gender", "date_of_birth", "address", "password",
    "created_at", "updated_at"] "patients" none) [] fun
    | .error err =>
      .done ⟨c.String StatusInternalServerError "Failed to get patients",
        [Println ["Error querying patients:", err.Error]], []⟩
    | .ok rows =>
      let scanned := scanSkipping "Error scanning patient row:" rows Slice.make []
      .done ⟨c.JSON StatusOK (scanned.1.toJson Patient.toJson), scanned.2, []⟩

/-- Handler `getPatient`. -/
def getPatient {β : Type} (c : Context β) : Action Patient Outcome :=
  match Atoi (c.Param "id") with
  | .error _ => .done ⟨c.String StatusBadRequest "Invalid patient ID", [], []⟩
  | .ok id =>
    .QueryRow (.select ["id", "nik", "name", "gender", "date_of_birth", "address", "password",
      "created_at", "updated_at"] "patients" (some "id")) [.int id] fun
      | .error err =>
        if err = .ErrNoRows then
          .done ⟨c.String StatusNotFound "Patient not found", [], []⟩
        else
          .done ⟨c.String StatusInternalServerError "Failed to get patient",
            [Println ["Error getting patient:", err.Error]], []⟩
      | .ok patient => .done ⟨c.JSON StatusOK patient.toJson, [], []⟩

/-- Handler `createPatient`. -/
def createPatient (c : Context Patient) : Action Patient Outcome :=
  match c.Bind with
  | .error _ => .done ⟨c.String StatusBadRequest "Invalid request payload", [], []⟩
  | .ok patient =>
    .Exec (.insert "patients" ["nik", "name", "gender", "date_of_birth", "address", "password"])
      [.string patient.Nik, .string patient.Name, .string patient.Gender, .string
        patient.DateOfBirth, .string patient.Address, .string patient.Password] fun
      | .error err =>
        .done ⟨c.String StatusInternalServerError "Failed to insert patient",
          [Println ["Error inserting patient:", err.Error]], []⟩
      | .ok result =>
        match result.LastInsertId with
        | (_, some err) =>
          .done ⟨c.String StatusInternalServerError "Failed to get last insert ID",
            [Println ["Error getting last insert ID:", err.Error]], []⟩
        | (id, none) =>
          .done ⟨c.JSON StatusCreated ({ patient with ID := uint id } : Patient).toJson, [], []⟩

/-- Handler `updatePatient`. -/
def updatePatient (c : Context Patient) : Action Patient Outcome :=
  match Atoi (c.Param "id") with
  | .error _ => .done ⟨c.String StatusBadRequest "Invalid patient ID", [], []⟩
  | .ok id =>
    match c.Bind with
    | .error _ => .done ⟨c.String StatusBadRequest "Invalid request payload", [], []⟩
    | .ok patient =>
      .Exec (.update "patients" ["nik", "name", "gender", "date_of_birth", "address",
        "password"] "id")
        [.string patient.Nik, .string patient.Name, .string patient.Gender, .string
          patient.DateOfBirth, .string patient.Address, .string patient.Password, .int id] fun
        | .error err =>
          .done ⟨c.String StatusInternalServerError "Failed to update patient",
            [Println ["Error updating patient:", err.Error]], []⟩
        | .ok _ =>
          .done ⟨c.JSON StatusOK ({ patient with ID := uint id } : Patient).toJson, [], []⟩

/-- Handler `deletePatient`. -/
def deletePatient {β : Type} (c : Context β) : Action Patient Outcome :=
  match Atoi (c.Param "id") with
  | .error _ => .done ⟨c.String StatusBadRequest "Invalid patient ID", [], []⟩
  | .ok id =>
    .Exec (.delete "patients" "id") [.int id] fun
      | .error err =>
        .done ⟨c.String StatusInternalServerError "Failed to delete patient",
          [Println ["Error deleting patient:", err.Error]], []⟩
      | .ok _ =>
        .done ⟨c.String StatusOK ("Patient with ID " ++ toString id ++ " deleted"), [], []⟩

/-- Handler `login`. -/
def login (c : Context Credentials) : Action Patient Outcome :=
  match c.Bind with
  | .error _ => .done ⟨c.String StatusBadRequest "Invalid request payload", [], []⟩
  | .ok credentials =>
    .QueryRow (.select ["id", "nik", "name", "gender", "date_of_birth", "address", "password",
        "created_at", "updated_at"] "patients" (some "nik")) [.string credentials.Nik] fun
      | .error err =>
        if err = .ErrNoRows then
          .done ⟨c.String StatusUnauthorized "Invalid NIK or password", [], []⟩
        else
          .done ⟨c.String StatusInternalServerError "Failed to get patient",
            [Println ["Error getting patient:", err.Error]], []⟩
      | .ok patient =>
        if patient.Password ≠ credentials.Password then
          .done ⟨c.String StatusUnauthorized "Invalid NIK or password", [], []⟩
        else
          .done ⟨c.JSON StatusOK patient.toJson, [], []⟩

/-! ## `clinic-go`: handlers of `doctors` -/

/-- Handler `getDoctors`. -/
def getDoctors {β : Type} (c : Context β) : Action Doctor Outcome :=
  .Query (.select ["id", "user_id", "specialization", "created_at", "updated_at",
      "profile_photo_path"] "doctors" none) [] fun
    | .error err =>
      .done ⟨c.String StatusInternalServerError "Failed to get doctors",
        [Println ["Error querying doctors:", err.Error]], []⟩
    | .ok rows =>
      let scanned := scanSkipping "Error scanning doctor row:" rows Slice.make []
      .done ⟨c.JSON StatusOK (scanned.1.toJson Doctor.toJson), scanned.2,
        [Println ["Doctors:", formatDoctors scanned.1]]⟩

/-- Handler `getDoctor`. -/
def getDoctor {β : Type} (c : Context β) : Action Doctor Outcome :=
  match Atoi (c.Param "id") with
  | .error _ => .done ⟨c.String StatusBadRequest "Invalid doctor ID", [], []⟩
  | .ok id =>
    .QueryRow (.select ["id", "user_id", "specialization", "created_at", "updated_at",
        "profile_photo_path"] "doctors" (some "id")) [.int id] fun
      | .error err =>
        if err = .ErrNoRows then
          .done ⟨c.String StatusNotFound "Doctor not found", [], []⟩
        else
          .done ⟨c.String StatusInternalServerError "Failed to get doctor",
            [Println ["Error getting doctor:", err.Error]], []⟩
      | .ok doctor => .done ⟨c.JSON StatusOK doctor.toJson, [], []⟩

/-- Handler `createDoctor`; `now1` and `now2` are the values of its two calls of
`time.Now()`. -/
def createDoctor (c : Context Doctor) (now1 now2 : Time) : Action Doctor Outcome :=
  match c.Bind with
  | .error _ => .done ⟨c.String StatusBadRequest "Invalid request payload", [], []⟩
  | .ok doctor =>
    .Exec (.insert "doctors" ["user_id", "specialization", "created_at", "updated_at",
        "profile_photo_path"])
      [.int doctor.UserID, .string doctor.Specialization, .time now1, .time now2,
        .string doctor.ProfilePhotoPath] fun
      | .error err =>
        .done ⟨c.String StatusInternalServerError "Failed to insert doctor",
          [Println ["Error inserting doctor:", err.Error]], []⟩
      | .ok result =>
        match result.LastInsertId with
        | (_, some err) =>
          .done ⟨c.String StatusInternalServerError "Failed to get last insert ID",
            [Println ["Error getting last insert ID:", err.Error]], []⟩
        | (id, none) =>
          .done ⟨c.JSON StatusCreated ({ doctor with ID := id } : Doctor).toJson, [], []⟩

/-- Handler `updateDoctor`; `now` is the value of its call of `time.Now()`. -/
def updateDoctor (c : Context Doctor) (now : Time) : Action Doctor Outcome :=
  match Atoi (c.Param "id") with
  | .error _ => .done ⟨c.String StatusBadRequest "Invalid doctor ID", [], []⟩
  | .ok id =>
    match c.Bind with
    | .error _ => .done ⟨c.String StatusBadRequest "Invalid request payload", [], []⟩
    | .ok doctor =>
      .Exec (.update "doctors" ["user_id", "specialization", "profile_photo_path",
          "updated_at"] "id")
        [.int doctor.UserID, .string doctor.Specialization, .string doctor.ProfilePhotoPath,
          .time now, .int id] fun
        | .error err =>
          .done ⟨c.String StatusInternalServerError "Failed to update doctor",
            [Println ["Error updating doctor:", err.Error]], []⟩
        | .ok _ =>
          .done ⟨c.JSON StatusOK ({ doctor with ID := id } : Doctor).toJson, [], []⟩

/-- Handler `deleteDoctor`. -/
def deleteDoctor {β : Type} (c : Context β) : Action Doctor Outcome :=
  match Atoi (c.Param "id") with
  | .error _ => .done ⟨c.String StatusBadRequest "Invalid doctor ID", [], []⟩
  | .ok id =>
    .Exec (.delete "doctors" "id") [.int id] fun
      | .error err =>
        .done ⟨c.String StatusInternalServerError "Failed to delete doctor",
          [Println ["Error deleting doctor:", err.Error]], []⟩
      | .ok _ =>
        .done ⟨c.String StatusOK ("Doctor with ID " ++ toString id ++ " deleted"), [], []⟩

/-! ## `clinic-go`: handlers of `transactions` -/

/-- Handler `getAllTransactions`. -/
def getAllTransactions {β : Type} (c : Context β) : Action Transaction Outcome :=
  .Query (.select ["id", "patient_id", "drug_id", "quantity", "total_price", "currency",
      "prescription", "created_at", "updated_at"] "transactions" none) [] fun
    | .error _ =>
      .done ⟨c.String StatusInternalServerError "Failed to get transactions", [], []⟩
    | .ok rows =>
      match scanAll rows Slice.make with
      | .error _ =>
        .done ⟨c.String StatusInternalServerError "Failed to scan transactions", [], []⟩
      | .ok transactions =>
        .done ⟨c.JSON StatusOK (transactions.toJson Transaction.toJson), [], []⟩

/-- Handler `getTransactionByID`. -/
def getTransactionByID {β : Type} (c : Context β) : Action Transaction Outcome :=
  match Atoi (c.Param "id") with
  | .error _ => .done ⟨c.String StatusBadRequest "Invalid transaction ID", [], []⟩
  | .ok id =>
    .QueryRow (.select ["id", "patient_id", "drug_id", "quantity", "total_price", "currency",
        "prescription", "created_at", "updated_at"] "transactions" (some "id")) [.int id] fun
      | .error err =>
        if err = .ErrNoRows then
          .done ⟨c.String StatusNotFound "Transaction not found", [], []⟩
        else
          .done ⟨c.String StatusInternalServerError "Failed to get transaction", [], []⟩
      | .ok t => .done ⟨c.JSON StatusOK t.toJson, [], []⟩

/-- Handler `createTransaction`. -/
def createTransaction (c : Context Transaction) : Action Transaction Outcome :=
  match c.Bind with
  | .error _ => .done ⟨c.String StatusBadRequest "Invalid request payload", [], []⟩
  | .ok t =>
    .Exec (.insert "transactions" ["patient_id", "drug_id", "quantity", "total_price",
        "currency", "prescription"])
      [.uint t.PatientID, .uint t.DrugID, .float64 t.Quantity, .float64 t.TotalPrice,
        .string t.Currency, .string t.Prescription] fun
      | .error _ =>
        .done ⟨c.String StatusInternalServerError "Failed to insert transaction", [], []⟩
      | .ok result =>
        match result.LastInsertId with
        | (_, some _) =>
          .done ⟨c.String StatusInternalServerError "Failed to get last insert ID", [], []⟩
        | (id, none) =>
          .done ⟨c.JSON StatusCreated ({ t with ID := uint id } : Transaction).toJson, [], []⟩

/-- Handler `updateTransaction`. -/
def updateTransaction (c : Context Transaction) : Action Transaction Outcome :=
  match Atoi (c.Param "id") with
  | .error _ => .done ⟨c.String StatusBadRequest "Invalid transaction ID", [], []⟩
  | .ok id =>
    match c.Bind with
    | .error _ => .done ⟨c.String StatusBadRequest "Invalid request payload", [], []⟩
    | .ok t =>
      .Exec (.update "transactions" ["patient_id", "drug_id", "quantity", "total_price",
          "currency", "prescription"] "id")
        [.uint t.PatientID, .uint t.DrugID, .float64 t.Quantity, .float64 t.TotalPrice,
          .string t.Currency, .string t.Prescription, .int id] fun
        | .error _ =>
          .done ⟨c.String StatusInternalServerError "Failed to update transaction", [], []⟩
        | .ok _ =>
          .done ⟨c.JSON StatusOK ({ t with ID := uint id } : Transaction).toJson, [], []⟩

/-- Handler `deleteTransaction`. -/
def deleteTransaction {β : Type} (c : Context β) : Action Transaction Outcome :=
  match Atoi (c.Param "id") with
  | .error _ => .done ⟨c.String StatusBadRequest "Invalid transaction ID", [], []⟩
  | .ok id =>
    .Exec (.delete "transactions" "id") [.int id] fun
      | .error _ =>
        .done ⟨c.String StatusInternalServerError "Failed to delete transaction", [], []⟩
      | .ok _ => .done ⟨c.NoContent StatusNoContent, [], []⟩

/-! ## `clinic-go`: the routes of `main` -/

/-- The six resources for which `main` registers the routes `GET /r`,
`GET /r/:id`, `POST /r`, `PUT /r/:id` and `DELETE /r/:id`. -/
inductive Resource
  | users
  | appointments
  | drugs
  | patients
  | doctors
  | transactions
  deriving DecidableEq, Repr

/-- The record type of a resource. -/
@[reducible] def Resource.Record : Resource → Type
  | .users => User
  | .appointments => PatientAppointment
  | .drugs => Drug
  | .patients => Patient
  | .doctors => Doctor
  | .transactions => Transaction

/-- The JSON encoding of the records of a resource. -/
def Resource.toJson : (r : Resource) → r.Record → Json
  | .users => User.toJson
  | .appointments => PatientAppointment.toJson
  | .drugs => Drug.toJson
  | .patients => Patient.toJson
  | .doctors => Doctor.toJson
  | .transactions => Transaction.toJson

/-- The handlers registered for `GET /r`. -/
def listHandler {β : Type} (r : Resource) (c : Context β) : Action r.Record Outcome :=
  match r with
  | .users => getUsers c
  | .appointments => getAppointments c
  | .drugs => getDrugs c
  | .patients => getPatients c
  | .doctors => getDoctors c
  | .transactions => getAllTransactions c

/-- The handlers registered for `GET /r/:id`. -/
def getHandler {β : Type} (r : Resource) (c : Context β) : Action r.Record Outcome :=
  match r with
  | .users => getUser c
  | .appointments => getAppointment c
  | .drugs => getDrug c
  | .patients => getPatient c
  | .doctors => getDoctor c
  | .transactions => getTransactionByID c

/-- The handlers registered for `POST /r`; `now1` and `now2` are the clock
readings `createDoctor` takes. -/
def createHandler (r : Resource) (c : Context r.Record) (now1 now2 : Time) :
    Action r.Record Outcome :=
  match r, c with
  | .users, c => createUser c
  | .appointments, c => createAppointment c
  | .drugs, c => createDrug c
  | .patients, c => createPatient c
  | .doctors, c => createDoctor c now1 now2
  | .transactions, c => createTransaction c

/-- The handlers registered for `PUT /r/:id`; `now` is the clock reading
`updateDoctor` takes. -/
def updateHandler (r : Resource) (c : Context r.Record) (now : Time) :
    Action r.Record Outcome :=
  match r, c with
  | .users, c => updateUser c
  | .appointments, c => updateAppointment c
  | .drugs, c => updateDrug c
  | .patients, c => updatePatient c
  | .doctors, c => updateDoctor c now
  | .transactions, c => updateTransaction c

/-- The handlers registered for `DELETE /r/:id`. -/
def deleteHandler {β : Type} (r : Resource) (c : Context β) : Action r.Record Outcome :=
  match r with
  | .users => deleteUser c
  | .appointments => deleteAppointment c
  | .drugs => deleteDrug c
  | .patients => deletePatient c
  | .doctors => deleteDoctor c
  | .transactions => deleteTransaction c

/-- The name of a resource's entity in the texts of the handlers. -/
def Resource.entity : Resource → String
  | .users => "User"
  | .appointments => "Appointment"
  | .drugs => "Drug"
  | .patients => "Patient"
  | .doctors => "Doctor"
  | .transactions => "Transaction"

/-! ## `clinic-go`: rows and records -/

/-- The `Scan` call of `getUsers` and `getUser`:
`Scan(&user.ID, &user.Name, &user.Email, &user.CreatedAt, &user.UpdatedAt)`. -/
def User.Scan (formatTime : Time → String) : List (Option SqlArg) → Except GoError User
  | [id, name, email, createdAt, updatedAt] => do
    let ID ← scanUint id
    let Name ← scanString formatTime name
    let Email ← scanString formatTime email
    let CreatedAt ← scanString formatTime createdAt
    let UpdatedAt ← scanString formatTime updatedAt
    pure ⟨ID, Name, Email, CreatedAt, UpdatedAt⟩
  | _ => .error (.other "sql: wrong number of destination arguments in Scan")

/-- The `Scan` call of `getAppointments` and `getAppointment`. -/
def PatientAppointment.Scan (formatTime : Time → String) :
    List (Option SqlArg) → Except GoError PatientAppointment
  | [id, patientID, userID, appointmentDate, notes, prescription, status, createdAt,
      updatedAt] => do
    let ID ← scanUint id
    let PatientID ← scanUint patientID
    let UserID ← scanInt userID
    let AppointmentDate ← scanString formatTime appointmentDate
    let Notes ← scanString formatTime notes
    let Prescription ← scanString formatTime prescription
    let Status ← scanString formatTime status
    let CreatedAt ← scanString formatTime createdAt
    let UpdatedAt ← scanString formatTime updatedAt
    pure ⟨ID, PatientID, UserID, AppointmentDate, Notes, Prescription, Status, CreatedAt,
      UpdatedAt⟩
  | _ => .error (.other "sql: wrong number of destination arguments in Scan")

/-- The `Scan` call of `getDrugs` and `getDrug`. -/
def Drug.Scan (formatTime : Time → String) : List (Option SqlArg) → Except GoError Drug
  | [id, drugName, drugType, description, composition, packaging, dosage, contraindications,
      sideEffects, price, currency, expirationDate, createdAt, updatedAt] => do
    let ID ← scanUint id
    let DrugName ← scanString formatTime drugName
    let DrugType ← scanString formatTime drugType
    let Description ← scanString formatTime description
    let Composition ← scanString formatTime composition
    let Packaging ← scanString formatTime packaging
    let Dosage ← scanString formatTime dosage
    let Contraindications ← scanString formatTime contraindications
    let SideEffects ← scanString formatTime sideEffects
    let Price ← scanFloat64 price
    let Currency ← scanString formatTime currency
    let ExpirationDate ← scanString formatTime expirationDate
    let CreatedAt ← scanString formatTime createdAt
    let UpdatedAt ← scanString formatTime updatedAt
    pure ⟨ID, DrugName, DrugType, Description, Composition, Packaging, Dosage,
      Contraindications, SideEffects, Price, Currency, ExpirationDate, CreatedAt, UpdatedAt⟩
  | _ => .error (.other "sql: wrong number of destination arguments in Scan")

/-- The `Scan` call of `getPatients`, `getPatient` and `login`. -/
def Patient.Scan (formatTime : Time → String) : List (Option SqlArg) → Except GoError Patient
  | [id, nik, name, gender, dateOfBirth, address, password, createdAt, updatedAt] => do
    let ID ← scanUint id
    let Nik ← scanString formatTime nik
    let Name ← scanString formatTime name
    let Gender ← scanString formatTime gender
    let DateOfBirth ← scanString formatTime dateOfBirth
    let Address ← scanString formatTime address
    let Password ← scanString formatTime password
    let CreatedAt ← scanString formatTime createdAt
    let UpdatedAt ← scanString formatTime updatedAt
    pure ⟨ID, Nik, Name, Gender, DateOfBirth, Address, Password, CreatedAt, UpdatedAt⟩
  | _ => .error (.other "sql: wrong number of destination arguments in Scan")

/-- The `Scan` call of `getDoctors` and `getDoctor`. -/
def Doctor.Scan (formatTime : Time → String) : List (Option SqlArg) → Except GoError Doctor
  | [id, userID, specialization, createdAt, updatedAt, profilePhotoPath] => do
    let ID ← scanInt id
    let UserID ← scanInt userID
    let Specialization ← scanString formatTime specialization
    let CreatedAt ← scanString formatTime createdAt
    let UpdatedAt ← scanString formatTime updatedAt
    let ProfilePhotoPath ← scanString formatTime profilePhotoPath
    pure ⟨ID, UserID, Specialization, CreatedAt, UpdatedAt, ProfilePhotoPath⟩
  | _ => .error (.other "sql: wrong number of destination arguments in Scan")

/-- The `Scan` call of `getAllTransactions` and `getTransactionByID`. -/
def Transaction.Scan (formatTime : Time → String) :
    List (Option SqlArg) → Except GoError Transaction
  | [id, patientID, drugID, quantity, totalPrice, currency, prescription, createdAt,
      updatedAt] => do
    let ID ← scanUint id
    let PatientID ← scanUint patientID
    let DrugID ← scanUint drugID
    let Quantity ← scanFloat64 quantity
    let TotalPrice ← scanFloat64 totalPrice
    let Currency ← scanString formatTime currency
    let Prescription ← scanString formatTime prescription
    let CreatedAt ← scanString formatTime createdAt
    let UpdatedAt ← scanString formatTime updatedAt
    pure ⟨ID, PatientID, DrugID, Quantity, TotalPrice, Currency, Prescription, CreatedAt,
      UpdatedAt⟩
  | _ => .error (.other "sql: wrong number of destination arguments in Scan")

/-- A `User` as a row: each column of the SELECT with the field its `Scan`
destination names. -/
def User.row (user : User) : Row :=
  [("id", .uint user.ID), ("name", .string user.Name), ("email", .string user.Email),
    ("created_at", .string user.CreatedAt), ("updated_at", .string user.UpdatedAt)]

/-- A `PatientAppointment` as a row. -/
def PatientAppointment.row (a : PatientAppointment) : Row :=
  [("id", .uint a.ID), ("patient_id", .uint a.PatientID), ("user_id", .int a.UserID),
    ("appointment_date", .string a.AppointmentDate), ("notes", .string a.Notes),
    ("prescription", .string a.Prescription), ("status", .string a.Status),
    ("created_at", .string a.CreatedAt), ("updated_at", .string a.UpdatedAt)]

/-- A `Drug` as a row. -/
def Drug.row (d : Drug) : Row :=
  [("id", .uint d.ID), ("drug_name", .string d.DrugName), ("drug_type", .string d.DrugType),
    ("description", .string d.Description), ("composition", .string d.Composition),
    ("packaging", .string d.Packaging), ("dosage", .string d.Dosage),
    ("contraindications", .string d.Contraindications),
    ("side_effects", .string d.SideEffects), ("price", .float64 d.Price),
    ("currency", .string d.Currency), ("expiration_date", .string d.ExpirationDate),
    ("created_at", .string d.CreatedAt), ("updated_at", .string d.UpdatedAt)]

/-- A `Patient` as a row. -/
def Patient.row (p : Patient) : Row :=
  [("id", .uint p.ID), ("nik", .string p.Nik), ("name", .string p.Name),
    ("gender", .string p.Gender), ("date_of_birth", .string p.DateOfBirth),
    ("address", .string p.Address), ("password", .string p.Password),
    ("created_at", .string p.CreatedAt), ("updated_at", .string p.UpdatedAt)]

/-- A `Doctor` as a row. -/
def Doctor.row (d : Doctor) : Row :=
  [("id", .int d.ID), ("user_id", .int d.UserID), ("specialization", .string d.Specialization),
    ("created_at", .string d.CreatedAt), ("updated_at", .string d.UpdatedAt),
    ("profile_photo_path", .string d.ProfilePhotoPath)]

/-- A `Transaction` as a row. -/
def Transaction.row (t : Transaction) : Row :=
  [("id", .uint t.ID), ("patient_id", .uint t.PatientID), ("drug_id", .uint t.DrugID),
    ("quantity", .float64 t.Quantity), ("total_price", .float64 t.TotalPrice),
    ("currency", .string t.Currency), ("prescription", .string t.Prescription),
    ("created_at", .string t.CreatedAt), ("updated_at", .string t.UpdatedAt)]

/-! ## `clinic-go`: tables, columns and ids of the resources -/

/-- The id field of a record, as an integer. -/
def Resource.ID : (r : Resource) → r.Record → Int
  | .users, user => user.ID
  | .appointments, appointment => appointment.ID
  | .drugs, drug => drug.ID
  | .patients, patient => patient.ID
  | .doctors, doctor => doctor.ID
  | .transactions, t => t.ID

/-- A record with its id field set to zero: what is left are the fields other
than the id. -/
def Resource.clearID : (r : Resource) → r.Record → r.Record
  | .users, user => ({ user with ID := 0 } : User)
  | .appointments, appointment => ({ appointment with ID := 0 } : PatientAppointment)
  | .drugs, drug => ({ drug with ID := 0 } : Drug)
  | .patients, patient => ({ patient with ID := 0 } : Patient)
  | .doctors, doctor => ({ doctor with ID := 0 } : Doctor)
  | .transactions, t => ({ t with ID := 0 } : Transaction)

/-- The table of a resource. -/
def Resource.table : Resource → String
  | .users => "users"
  | .appointments => "patient_appointments"
  | .drugs => "drugs"
  | .patients => "patients"
  | .doctors => "doctors"
  | .transactions => "transactions"

/-- The columns the SELECT statements of a resource read. -/
def Resource.columns : Resource → List String
  | .users => ["id", "name", "email", "created_at", "updated_at"]
  | .appointments => ["id", "patient_id", "user_id", "appointment_date", "notes",
      "prescription", "status", "created_at", "updated_at"]
  | .drugs => ["id", "drug_name", "drug_type", "description", "composition", "packaging",
      "dosage", "contraindications", "side_effects", "price", "currency", "expiration_date",
      "created_at", "updated_at"]
  | .patients => ["id", "nik", "name", "gender", "date_of_birth", "address", "password",
      "created_at", "updated_at"]
  | .doctors => ["id", "user_id", "specialization", "created_at", "updated_at",
      "profile_photo_path"]
  | .transactions => ["id", "patient_id", "drug_id", "quantity", "total_price", "currency",
      "prescription", "created_at", "updated_at"]

/-- The writable columns of a resource: those its INSERT statement fills from the
request body. -/
def Resource.writable : Resource → List String
  | .users => ["name", "email"]
  | .appointments => ["patient_id", "user_id", "appointment_date", "notes", "prescription",
      "status"]
  | .drugs => ["drug_name", "drug_type", "description", "composition", "packaging", "dosage",
      "contraindications", "side_effects", "price", "currency", "expiration_date"]
  | .patients => ["nik", "name", "gender", "date_of_birth", "address", "password"]
  | .doctors => ["user_id", "specialization", "profile_photo_path"]
  | .transactions => ["patient_id", "drug_id", "quantity", "total_price", "currency",
      "prescription"]

/-- The `Scan` call of the handlers of a resource. -/
def Resource.Scan (formatTime : Time → String) :
    (r : Resource) → List (Option SqlArg) → Except GoError r.Record
  | .users => User.Scan formatTime
  | .appointments => PatientAppointment.Scan formatTime
  | .drugs => Drug.Scan formatTime
  | .patients => Patient.Scan formatTime
  | .doctors => Doctor.Scan formatTime
  | .transactions => Transaction.Scan formatTime

/-- A record of a resource as a row. -/
def Resource.row : (r : Resource) → r.Record → Row
  | .users => User.row
  | .appointments => PatientAppointment.row
  | .drugs => Drug.row
  | .patients => Patient.row
  | .doctors => Doctor.row
  | .transactions => Transaction.row

/-- The values of the writable columns in a record, in the order of
`Resource.writable`. -/
def Resource.written (r : Resource) (record : r.Record) : List (Option SqlArg) :=
  r.writable.map fun col => (r.row record).lookup col

/-- A table that fits a resource: it has the name and the columns the statements
of the resource use, and its schema gives `created_at` and `updated_at` default
values that scan into a string. -/
def Resource.Fits (formatTime : Time → String) (r : Resource) (t : Table) : Prop :=
  t.name = r.table ∧ t.columns = r.columns ∧
    (∃ s, scanString formatTime (t.defaults.lookup "created_at") = .ok s) ∧
    (∃ s, scanString formatTime (t.defaults.lookup "updated_at") = .ok s)

/-- Modelled from the spec: the database behind the handlers of a resource. -/
def clinicDatabase (formatTime : Time → String) (r : Resource) : Database Table r.Record :=
  tableDatabase (r.Scan formatTime)

end ClinicGo

/-! ## `myproject`: the person registry -/

namespace MyProject

/-- The part of `gin.Context` the handlers use: the path parameters and the
outcome of `c.BindJSON` into a `person`. -/
structure Context (β : Type) where
  Param : String → String
  BindJSON : Except GoError β

/-- Response of `c.JSON(code, v)`, with `v` already encoded. -/
def Context.JSON {β : Type} (_c : Context β) (code : Nat) (v : Json) : Response :=
  ⟨code, .json v⟩

/-- The JSON object written for a `gin.H` with one string entry. -/
def H (key : String) (value : String) : Json := .obj [(key, .str value)]

/-- Record `person`. -/
structure person where
  ID : String
  FullName : String
  Age : Int
  deriving DecidableEq, Repr

/-- JSON encoding of a `person`, by its field tags. -/
def person.toJson (p : person) : Json :=
  .obj [("id", .str p.ID), ("FullName", .str p.FullName), ("age", .num p.Age)]

/-- Type `sortedPersons`, a slice of persons seen through `sort.Interface`. -/
abbrev sortedPersons := List person

/-- Method `Len`. -/
def sortedPersons.Len (s : sortedPersons) : Nat := s.length

/-- Method `Less`: `s[i].ID < s[j].ID`, the comparison of Go strings (an index out
of range, on which Go panics, gives `false`). -/
def sortedPersons.Less (s : sortedPersons) (i j : Nat) : Bool :=
  match s[i]?, s[j]? with
  | some a, some b => stringLess a.ID b.ID
  | _, _ => false

/-- Method `Swap`: `s[i], s[j] = s[j], s[i]` (an index out of range, on which Go
panics, leaves the slice as it is). -/
def sortedPersons.Swap (s : sortedPersons) (i j : Nat) : sortedPersons :=
  match s[i]?, s[j]? with
  | some a, some b => (s.set i b).set j a
  | _, _ => s

/-- Go `sort.IsSorted`: no element is `Less` than its predecessor. -/
def IsSorted (s : sortedPersons) : Bool :=
  (List.range s.Len).all fun i => i == 0 || !s.Less i (i - 1)

/-- What `sort.Sort` of the Go standard library guarantees when it turns the
slice `input` into `output`: it changes the slice only through `Swap` (at indices
below `Len`), and it leaves it sorted by `Less`. -/
def SortContract (input output : sortedPersons) : Prop :=
  (∃ swaps : List (Nat × Nat),
      (∀ p ∈ swaps, p.1 < input.Len ∧ p.2 < input.Len) ∧
      output = swaps.foldl (fun s p => s.Swap p.1 p.2) input) ∧
    IsSorted output = true

/-- The inner loop of the insertion sort of package `sort`:
`for j := i; j > 0 && data.Less(j, j-1); j-- { data.Swap(j, j-1) }`. -/
def insertionSort.inner (s : sortedPersons) : Nat → sortedPersons
  | 0 => s
  | j + 1 => if s.Less (j + 1) j then insertionSort.inner (s.Swap (j + 1) j) j else s

/-- The insertion sort of package `sort`, which `sort.Sort` runs on slices of at
most 12 elements: `for i := 1; i < n; i++` runs the inner loop from `i`. -/
def insertionSort (s : sortedPersons) : sortedPersons :=
  (List.range s.Len).foldl (fun acc i => insertionSort.inner acc i) s

/-- Sorting a slice in place: the elements are rearranged, a nil slice stays nil. -/
def sortInPlace (sortSort : sortedPersons → sortedPersons) : Slice person → Slice person
  | .nilSlice => .nilSlice
  | .ofList elems => .ofList (sortSort elems)

/-- Handler `getSortedPersons`; `sortSort` is `sort.Sort` of the standard library on
a `sortedPersons`. -/
def getSortedPersons {β : Type} (sortSort : sortedPersons → sortedPersons) (c : Context β) :
    Action person Outcome :=
  .Query (.select ["id", "FullName", "age"] "persons" none) [] fun
    | .error err =>
      .done ⟨c.JSON StatusInternalServerError (H "error" err.Error), [], []⟩
    | .ok rows =>
      match scanAll rows .nilSlice with
      | .error err =>
        .done ⟨c.JSON StatusInternalServerError (H "error" err.Error), [], []⟩
      | .ok persons =>
        .done ⟨c.JSON StatusOK ((sortInPlace sortSort persons).toJson person.toJson), [], []⟩

/-- Handler `createPersons`. -/
def createPersons (c : Context person) : Action person Outcome :=
  match c.BindJSON with
  | .error err => .done ⟨c.JSON StatusBadRequest (H "error" err.Error), [], []⟩
  | .ok newPerson =>
    .Exec (.insert "persons" ["id", "FullName", "age"])
      [.string newPerson.ID, .string newPerson.FullName, .int newPerson.Age] fun
      | .error err =>
        .done ⟨c.JSON StatusInternalServerError (H "error" err.Error), [], []⟩
      | .ok _ => .done ⟨c.JSON StatusCreated newPerson.toJson, [], []⟩

/-- Handler `getPersonById`. -/
def getPersonById {β : Type} (c : Context β) : Action person Outcome :=
  let id := c.Param "id"
  .QueryRow (.select ["id", "FullName", "age"] "persons" (some "id")) [.string id] fun
    | .error _ => .done ⟨c.JSON StatusNotFound (H "message" "Person not found"), [], []⟩
    | .ok p => .done ⟨c.JSON StatusOK p.toJson, [], []⟩

/-- Handler `deletePerson`. -/
def deletePerson {β : Type} (c : Context β) : Action person Outcome :=
  let id := c.Param "id"
  .Exec (.delete "persons" "id") [.string id] fun
    | .error err =>
      .done ⟨c.JSON StatusInternalServerError (H "error" err.Error), [], []⟩
    | .ok result =>
      let rowsAffected := result.RowsAffected.1
      if rowsAffected = 0 then
        .done ⟨c.JSON StatusNotFound (H "message" "Person not found"), [], []⟩
      else
        .done ⟨c.JSON StatusOK (H "message" "Person deleted successfully"), [], []⟩

/-! ## `myproject`: `Scan`, `initDB` and `main` -/

/-- The `Scan` call of `getSortedPersons` and `getPersonById`:
`Scan(&p.ID, &p.FullName, &p.Age)`. -/
def person.Scan (formatTime : Time → String) : List (Option SqlArg) → Except GoError person
  | [id, fullName, age] => do
    let ID ← scanString formatTime id
    let FullName ← scanString formatTime fullName
    let Age ← scanInt age
    pure ⟨ID, FullName, Age⟩
  | _ => .error (.other "sql: wrong number of destination arguments in Scan")

/-- A table that fits the person registry. -/
def FitsPersons (t : Table) : Prop :=
  t.name = "persons" ∧ t.columns = ["id", "FullName", "age"]

/-- Modelled from the spec: the database behind the handlers of the person
registry. -/
def personsDatabase (formatTime : Time → String) : Database Table person :=
  tableDatabase (person.Scan formatTime)

/-- Function `initDB`: `sqlOpen` and `dbPing` are what `sql.Open` and `db.Ping`
return. -/
def initDB (sqlOpen : Option GoError) (dbPing : Option GoError) : Option GoError :=
  match sqlOpen with
  | some err => some err
  | none =>
    match dbPing with
    | some err => some err
    | none => none

/-- The handlers `main` registers. -/
inductive RouteHandler
  | getSortedPersons
  | createPersons
  | getPersonById
  | deletePerson
  deriving DecidableEq, Repr

/-- How `main` ends: it returns, having printed `stdout`, or it runs the router
with `routes` on `addr`. -/
inductive Startup
  | returned (stdout : List String)
  | serving (routes : List (String × String × RouteHandler)) (addr : String)
  deriving DecidableEq, Repr

/-- The routes `main` registers on the router, in order. -/
def routes : List (String × String × RouteHandler) :=
  [("GET", "/persons", .getSortedPersons), ("POST", "/persons", .createPersons),
    ("GET", "/persons/:id", .getPersonById), ("DELETE", "/persons/:id", .deletePerson)]

/-- Function `main`.  `sqlOpen` and `dbPing` are what `sql.Open` and `db.Ping`
return; `addID`, `addFullName` and `addAge` are the values of the flags `id`,
`name` and `age` after `flag.Parse()`: the value given on the command line, or
the default (`""`, `""` and `0`) for a flag that is not given. -/
def main (sqlOpen dbPing : Option GoError) (addID addFullName : String) (addAge : Int) :
    Action person Startup :=
  match initDB sqlOpen dbPing with
  | some err => .done (.returned [Println ["Error connecting to the database:", err.Error]])
  | none =>
    let serve : Action person Startup := .done (.serving routes "localhost:8080")
    if addID ≠ "" ∧ addFullName ≠ "" ∧ addAge > 0 then
      let newPerson : person := ⟨addID, addFullName, addAge⟩
      .Exec (.insert "persons" ["id", "FullName", "age"])
        [.string newPerson.ID, .string newPerson.FullName, .int newPerson.Age] fun
        | .error err => .done (.returned [Println ["Error adding person:", err.Error]])
        | .ok _ => serve
    else serve

end MyProject

/-! ## Example tables -/

/-- A users table with one row, and 8 as its next id. -/
def usersTable : Table :=
  ⟨"users", ["id", "name", "email", "created_at", "updated_at"],
    [("created_at", .string "2024-01-01 00:00:00"), ("updated_at", .string "2024-01-01 00:00:00")],
    [[("id", .int 7), ("name", .string "Budi"), ("email", .string "budi@x.id"),
      ("created_at", .string "2023-05-05 10:00:00"),
      ("updated_at", .string "2023-05-05 10:00:00")]], 8⟩

/-- A persons table with one row. -/
def personsTable : Table :=
  ⟨"persons", ["id", "FullName", "age"], [],
    [[("id", .string "b"), ("FullName", .string "Budi"), ("age", .int 30)]], 0⟩

end RestApi

/-! ## Theorems -/

namespace RestApi

attribute [simp] ClinicGo.getUsers ClinicGo.getUser ClinicGo.createUser ClinicGo.updateUser
  ClinicGo.deleteUser ClinicGo.getAppointments ClinicGo.getAppointment
  ClinicGo.createAppointment ClinicGo.updateAppointment ClinicGo.deleteAppointment
  ClinicGo.getDrugs ClinicGo.getDrug ClinicGo.createDrug ClinicGo.updateDrug
  ClinicGo.deleteDrug ClinicGo.getPatients ClinicGo.getPatient ClinicGo.createPatient
  ClinicGo.updatePatient ClinicGo.deletePatient ClinicGo.getDoctors ClinicGo.getDoctor
  ClinicGo.createDoctor ClinicGo.updateDoctor ClinicGo.deleteDoctor
  ClinicGo.getAllTransactions ClinicGo.getTransactionByID ClinicGo.createTransaction
  ClinicGo.updateTransaction ClinicGo.deleteTransaction ClinicGo.login
  ClinicGo.listHandler ClinicGo.getHandler ClinicGo.createHandler ClinicGo.updateHandler
  ClinicGo.deleteHandler ClinicGo.Context.String ClinicGo.Context.JSON
  ClinicGo.Context.NoContent MyProject.Context.JSON MyProject.getSortedPersons
  MyProject.createPersons MyProject.getPersonById MyProject.deletePerson
  Action.run Action.exec Action.respond

/-! ### The SQL of the handlers

The statements are embedded by shape; these theorems recover, handler by handler,
the SQL text of the source from them. -/

/-- SQL of the handlers of `users`. -/
theorem users_sql_texts :
    (ClinicGo.getUsers (⟨fun _ => "1", .ok ()⟩ : ClinicGo.Context Unit)).sql [.rows (.ok [])]
      = some ["SELECT id, name, email, created_at, updated_at FROM users"] ∧
    (ClinicGo.getUser (⟨fun _ => "1", .ok ()⟩ : ClinicGo.Context Unit)).sql
        [.row (.error .ErrNoRows)]
      = some ["SELECT id, name, email, created_at, updated_at FROM users WHERE id = ?"] ∧
    (ClinicGo.createUser ⟨fun _ => "1", .ok ⟨0, "", "", "", ""⟩⟩).sql
        [.result (.error .ErrNoRows)]
      = some ["INSERT INTO users (name, email) VALUES (?, ?)"] ∧
    (ClinicGo.updateUser ⟨fun _ => "1", .ok ⟨0, "", "", "", ""⟩⟩).sql
        [.result (.error .ErrNoRows)]
      = some ["UPDATE users SET name = ?, email = ? WHERE id = ?"] ∧
    (ClinicGo.deleteUser (⟨fun _ => "1", .ok ()⟩ : ClinicGo.Context Unit)).sql
        [.result (.error .ErrNoRows)]
      = some ["DELETE FROM users WHERE id = ?"] := by
  decide

/-- SQL of the handlers of `patient_appointments`. -/
theorem appointments_sql_texts :
    (ClinicGo.getAppointments (⟨fun _ => "1", .ok ()⟩ : ClinicGo.Context Unit)).sql
        [.rows (.ok [])]
      = some ["SELECT id, patient_id, user_id, appointment_date, notes, prescription, status, created_at, updated_at FROM patient_appointments"] ∧
    (ClinicGo.getAppointment (⟨fun _ => "1", .ok ()⟩ : ClinicGo.Context Unit)).sql
        [.row (.error .ErrNoRows)]
      = some ["SELECT id, patient_id, user_id, appointment_date, notes, prescription, status, created_at, updated_at FROM patient_appointments WHERE id = ?"] ∧
    (ClinicGo.createAppointment ⟨fun _ => "1", .ok ⟨0, 0, 0, "", "", "", "", "", ""⟩⟩).sql
        [.result (.error .ErrNoRows)]
      = some ["INSERT INTO patient_appointments (patient_id, user_id, appointment_date, notes, prescription, status) VALUES (?, ?, ?, ?, ?, ?)"] ∧
    (ClinicGo.updateAppointment ⟨fun _ => "1", .ok ⟨0, 0, 0, "", "", "", "", "", ""⟩⟩).sql
        [.result (.error .ErrNoRows)]
      = some ["UPDATE patient_appointments SET patient_id = ?, doctor_id = ?, appointment_date = ?, notes = ?, prescription = ?, status = ? WHERE id = ?"] ∧
    (ClinicGo.deleteAppointment (⟨fun _ => "1", .ok ()⟩ : ClinicGo.Context Unit)).sql
        [.result (.error .ErrNoRows)]
      = some ["DELETE FROM patient_appointments WHERE id = ?"] := by
  decide

set_option maxRecDepth 8192 in
/-- SQL of the handlers of `drugs`. -/
theorem drugs_sql_texts :
    (ClinicGo.getDrugs (⟨fun _ => "1", .ok ()⟩ : ClinicGo.Context Unit)).sql [.rows (.ok [])]
      = some ["SELECT id, drug_name, drug_type, description, composition, packaging, dosage, contraindications, side_effects, price, currency, expiration_date, created_at, updated_at FROM drugs"] ∧
    (ClinicGo.getDrug (⟨fun _ => "1", .ok ()⟩ : ClinicGo.Context Unit)).sql
        [.row (.error .ErrNoRows)]
      = some ["SELECT id, drug_name, drug_type, description, composition, packaging, dosage, contraindications, side_effects, price, currency, expiration_date, created_at, updated_at FROM drugs WHERE id = ?"] ∧
    (ClinicGo.createDrug
        ⟨fun _ => "1", .ok ⟨0, "", "", "", "", "", "", "", "", ⟨0⟩, "", "", "", ""⟩⟩).sql
        [.result (.error .ErrNoRows)]
      = some ["INSERT INTO drugs (drug_name, drug_type, description, composition, packaging, dosage, contraindications, side_effects, price, currency, expiration_date) VALUES (?, ?, ?, ?, ?, ?, ?, ?, ?, ?, ?)"] ∧
    (ClinicGo.updateDrug
        ⟨fun _ => "1", .ok ⟨0, "", "", "", "", "", "", "", "", ⟨0⟩, "", "", "", ""⟩⟩).sql
        [.result (.error .ErrNoRows)]
      = some ["UPDATE drugs SET drug_name = ?, drug_type = ?, description = ?, composition = ?, packaging = ?, dosage = ?, contraindications = ?, side_effects = ?, price = ?, currency = ?, expiration_date = ? WHERE id = ?"] ∧
    (ClinicGo.deleteDrug (⟨fun _ => "1", .ok ()⟩ : ClinicGo.Context Unit)).sql
        [.result (.error .ErrNoRows)]
      = some ["DELETE FROM drugs WHERE id = ?"] := by
  decide

/-- SQL of the handlers of `patients` and of `login`. -/
theorem patients_sql_texts :
    (ClinicGo.getPatients (⟨fun _ => "1", .ok ()⟩ : ClinicGo.Context Unit)).sql
        [.rows (.ok [])]
      = some ["SELECT id, nik, name, gender, date_of_birth, address, password, created_at, updated_at FROM patients"] ∧
    (ClinicGo.getPatient (⟨fun _ => "1", .ok ()⟩ : ClinicGo.Context Unit)).sql
        [.row (.error .ErrNoRows)]
      = some ["SELECT id, nik, name, gender, date_of_birth, address, password, created_at, updated_at FROM patients WHERE id = ?"] ∧
    (ClinicGo.createPatient ⟨fun _ => "1", .ok ⟨0, "", "", "", "", "", "", "", ""⟩⟩).sql
        [.result (.error .ErrNoRows)]
      = some ["INSERT INTO patients (nik, name, gender, date_of_birth, address, password) VALUES (?, ?, ?, ?, ?, ?)"] ∧
    (ClinicGo.updatePatient ⟨fun _ => "1", .ok ⟨0, "", "", "", "", "", "", "", ""⟩⟩).sql
        [.result (.error .ErrNoRows)]
      = some ["UPDATE patients SET nik = ?, name = ?, gender = ?, date_of_birth = ?, address = ?, password = ? WHERE id = ?"] ∧
    (ClinicGo.deletePatient (⟨fun _ => "1", .ok ()⟩ : ClinicGo.Context Unit)).sql
        [.result (.error .ErrNoRows)]
      = some ["DELETE FROM patients WHERE id = ?"] ∧
    (ClinicGo.login ⟨fun _ => "1", .ok ⟨"", ""⟩⟩).sql [.row (.error .ErrNoRows)]
      = some ["SELECT id, nik, name, gender, date_of_birth, address, password, created_at, updated_at FROM patients WHERE nik = ?"] := by
  decide

/-- SQL of the handlers of `doctors`. -/
theorem doctors_sql_texts :
    (ClinicGo.getDoctors (⟨fun _ => "1", .ok ()⟩ : ClinicGo.Context Unit)).sql [.rows (.ok [])]
      = some ["SELECT id, user_id, specialization, created_at, updated_at, profile_photo_path FROM doctors"] ∧
    (ClinicGo.getDoctor (⟨fun _ => "1", .ok ()⟩ : ClinicGo.Context Unit)).sql
        [.row (.error .ErrNoRows)]
      = some ["SELECT id, user_id, specialization, created_at, updated_at, profile_photo_path FROM doctors WHERE id = ?"] ∧
    (ClinicGo.createDoctor ⟨fun _ => "1", .ok ⟨0, 0, "", "", "", ""⟩⟩ ⟨0⟩ ⟨0⟩).sql
        [.result (.error .ErrNoRows)]
      = some ["INSERT INTO doctors (user_id, specialization, created_at, updated_at, profile_photo_path) VALUES (?, ?, ?, ?, ?)"] ∧
    (ClinicGo.updateDoctor ⟨fun _ => "1", .ok ⟨0, 0, "", "", "", ""⟩⟩ ⟨0⟩).sql
        [.result (.error .ErrNoRows)]
      = some ["UPDATE doctors SET user_id = ?, specialization = ?, profile_photo_path = ?, updated_at = ? WHERE id = ?"] ∧
    (ClinicGo.deleteDoctor (⟨fun _ => "1", .ok ()⟩ : ClinicGo.Context Unit)).sql
        [.result (.error .ErrNoRows)]
      = some ["DELETE FROM doctors WHERE id = ?"] := by
  decide

/-- SQL of the handlers of `transactions`. -/
theorem transactions_sql_texts :
    (ClinicGo.getAllTransactions (⟨fun _ => "1", .ok ()⟩ : ClinicGo.Context Unit)).sql
        [.rows (.ok [])]
      = some ["SELECT id, patient_id, drug_id, quantity, total_price, currency, prescription, created_at, updated_at FROM transactions"] ∧
    (ClinicGo.getTransactionByID (⟨fun _ => "1", .ok ()⟩ : ClinicGo.Context Unit)).sql
        [.row (.error .ErrNoRows)]
      = some ["SELECT id, patient_id, drug_id, quantity, total_price, currency, prescription, created_at, updated_at FROM transactions WHERE id = ?"] ∧
    (ClinicGo.createTransaction
        ⟨fun _ => "1", .ok ⟨0, 0, 0, ⟨0⟩, ⟨0⟩, "", "", "", ""⟩⟩).sql
        [.result (.error .ErrNoRows)]
      = some ["INSERT INTO transactions (patient_id, drug_id, quantity, total_price, currency, prescription) VALUES (?, ?, ?, ?, ?, ?)"] ∧
    (ClinicGo.updateTransaction
        ⟨fun _ => "1", .ok ⟨0, 0, 0, ⟨0⟩, ⟨0⟩, "", "", "", ""⟩⟩).sql
        [.result (.error .ErrNoRows)]
      = some ["UPDATE transactions SET patient_id = ?, drug_id = ?, quantity = ?, total_price = ?, currency = ?, prescription = ? WHERE id = ?"] ∧
    (ClinicGo.deleteTransaction (⟨fun _ => "1", .ok ()⟩ : ClinicGo.Context Unit)).sql
        [.result (.error .ErrNoRows)]
      = some ["DELETE FROM transactions WHERE id = ?"] := by
  decide

/-- SQL of the handlers of `persons`. -/
theorem persons_sql_texts :
    (MyProject.getSortedPersons id (⟨fun _ => "1", .ok ()⟩ : MyProject.Context Unit)).sql
        [.rows (.ok [])]
      = some ["SELECT id, FullName, age FROM persons"] ∧
    (MyProject.getPersonById (⟨fun _ => "1", .ok ()⟩ : MyProject.Context Unit)).sql
        [.row (.error .ErrNoRows)]
      = some ["SELECT id, FullName, age FROM persons WHERE id = ?"] ∧
    (MyProject.createPersons ⟨fun _ => "1", .ok ⟨"", "", 0⟩⟩).sql [.result (.error .ErrNoRows)]
      = some ["INSERT INTO persons (id, FullName, age) VALUES (?, ?, ?)"] ∧
    (MyProject.deletePerson (⟨fun _ => "1", .ok ()⟩ : MyProject.Context Unit)).sql
        [.result (.error .ErrNoRows)]
      = some ["DELETE FROM persons WHERE id = ?"] := by
  decide

/-! ### Scan loops -/

/-- The loop that skips failing rows appends the records of the rows that scan,
in order. -/
theorem scanSkipping_records {ρ : Type} (msg : String) (rows : List (Except GoError ρ))
    (elems : List ρ) (log : List String) :
    (ClinicGo.scanSkipping msg rows (.ofList elems) log).1
      = .ofList (elems ++ rows.filterMap Except.toOption) := by
  induction rows generalizing elems log with
  | nil => simp [ClinicGo.scanSkipping]
  | cons row rows ih =>
    cases row with
    | error err => simp [ClinicGo.scanSkipping, ih, Except.toOption]
    | ok record =>
      simp [ClinicGo.scanSkipping, ih, Except.toOption, Slice.append, Slice.toList]

/-- The loop that gives up at the first failing row fails when some row does
not scan. -/
theorem scanAll_of_failing_row {ρ : Type} (rows : List (Except GoError ρ)) (acc : Slice ρ)
    (h : rows.any (fun row => !row.isOk) = true) : ∃ err, scanAll rows acc = .error err := by
  induction rows generalizing acc with
  | nil => simp at h
  | cons row rows ih =>
    cases row with
    | error err => exact ⟨err, by simp [scanAll]⟩
    | ok record =>
      have h2 : rows.any (fun row => !row.isOk) = true := by
        simpa [Except.isOk, Except.toBool] using h
      simpa [scanAll] using ih (acc.append record) h2

/-- The loop that gives up at the first failing row appends every record when
all rows scan. -/
theorem scanAll_of_no_failing_row {ρ : Type} (rows : List (Except GoError ρ))
    (elems : List ρ) (h : rows.any (fun row => !row.isOk) = false) :
    scanAll rows (.ofList elems) = .ok (.ofList (elems ++ rows.filterMap Except.toOption)) := by
  induction rows generalizing elems with
  | nil => simp [scanAll]
  | cons row rows ih =>
    cases row with
    | error err => simp [Except.isOk, Except.toBool] at h
    | ok record =>
      have h2 : rows.any (fun row => !row.isOk) = false := by
        simpa [Except.isOk, Except.toBool] using h
      simp [scanAll, Slice.append, Slice.toList, ih _ h2, Except.toOption]

/-! ### The sorted list of persons -/

section SortedPersons

open MyProject


theorem bytesLess_false_trans (xs ys zs : List Nat) (h1 : bytesLess ys xs = false)
    (h2 : bytesLess zs ys = false) : bytesLess zs xs = false := by
  induction xs generalizing ys zs with
  | nil => cases zs <;> simp [bytesLess]
  | cons x xs ih =>
    cases ys with
    | nil => simp [bytesLess] at h1
    | cons y ys =>
      cases zs with
      | nil => simp [bytesLess] at h2
      | cons z zs =>
        simp only [bytesLess] at h1 h2 ⊢
        split_ifs at h1 h2 ⊢ <;>
          first | rfl | exact ih ys zs h1 h2 | omega

theorem Swap_perm (s : sortedPersons) (i j : Nat) : (s.Swap i j).Perm s := by
  unfold sortedPersons.Swap
  split
  · rename_i a b hi hj
    obtain ⟨hi1, hi2⟩ := List.getElem?_eq_some.mp hi
    obtain ⟨hj1, hj2⟩ := List.getElem?_eq_some.mp hj
    rw [List.perm_iff_count]
    intro x
    have hmem : a ∈ s := hi2 ▸ List.getElem_mem hi1
    have hcount : (if (a == x) = true then 1 else 0) ≤ List.count x s := by
      split_ifs with hax
      · have : a = x := by simpa using hax
        subst this
        exact List.one_le_count_iff.mpr hmem
      · omega
    have hj' : j < (s.set i b).length := by simpa using hj1
    have hget : (s.set i b)[j] = b := by
      rw [List.getElem_set]
      split_ifs <;> simp [hj2]
    rw [List.count_set _ _ _ _ hj', List.count_set _ _ _ _ hi1, hget, hi2]
    split_ifs at hcount ⊢ <;> omega
  · exact List.Perm.refl _


theorem foldl_Swap_perm (swaps : List (Nat × Nat)) (s : sortedPersons) :
    (swaps.foldl (fun acc p => acc.Swap p.1 p.2) s).Perm s := by
  induction swaps generalizing s with
  | nil => exact List.Perm.refl _
  | cons p swaps ih => exact (ih _).trans (Swap_perm s p.1 p.2)

theorem pairwise_of_IsSorted (s : sortedPersons) (h : IsSorted s = true) :
    s.Pairwise (fun a b => stringLess b.ID a.ID = false) := by
  haveI : IsTrans person (fun a b => stringLess b.ID a.ID = false) :=
    ⟨fun a b c hab hbc => bytesLess_false_trans _ _ _ hab hbc⟩
  rw [← List.chain'_iff_pairwise, List.chain'_iff_get]
  intro i hi
  have hlt : i + 1 < s.length := by omega
  simp only [IsSorted, List.all_eq_true, List.mem_range, sortedPersons.Len] at h
  have := h (i + 1) hlt
  simpa [sortedPersons.Less, List.getElem?_eq_getElem hlt,
    List.getElem?_eq_getElem (Nat.lt_of_succ_lt hlt)] using this

theorem scanAll_ok_rows {ρ : Type} (x : ρ) (rows : List ρ) :
    scanAll ((x :: rows).map Except.ok) (.nilSlice : Slice ρ) = .ok (.ofList (x :: rows)) := by
  have hany : ((rows.map Except.ok : List (Except GoError ρ)).any fun row => !row.isOk)
      = false := by
    simp [Except.isOk, Except.toBool]
  have hmap : (rows.map Except.ok : List (Except GoError ρ)).filterMap Except.toOption
      = rows := by
    induction rows with
    | nil => rfl
    | cons y rows ih => simpa [Except.toOption] using ih (by simp [Except.isOk, Except.toBool])
  simp [scanAll, Slice.append, Slice.toList, scanAll_of_no_failing_row _ [x] hany, hmap]

/-- C1: when the persons query yields the rows `rows` (each scanning without
error) and `sort.Sort` keeps its contract on them, `getSortedPersons` answers 200
with the JSON encoding of a slice whose elements are a permutation of `rows` and
are in ascending order of id under the byte-wise lexicographic comparison of Go
strings. -/
theorem getSortedPersons_is_sorted_permutation (sortSort : sortedPersons → sortedPersons)
    (β : Type) (c : MyProject.Context β) (rows : List person)
    (hsort : SortContract rows (sortSort rows)) :
    ∃ out : Slice person,
      (getSortedPersons sortSort c).respond [.rows (.ok (rows.map .ok))]
        = some ⟨StatusOK, .json (out.toJson person.toJson)⟩ ∧
      out.toList.Perm rows ∧
      out.toList.Pairwise (fun a b => stringLess b.ID a.ID = false) := by
  obtain ⟨⟨swaps, -, hswaps⟩, hsorted⟩ := hsort
  cases rows with
  | nil =>
    exact ⟨.nilSlice, by simp [scanAll, sortInPlace], by simp [Slice.toList],
      by simp [Slice.toList]⟩
  | cons x rows =>
    refine ⟨.ofList (sortSort (x :: rows)), ?_, ?_, ?_⟩
    · have hscan := scanAll_ok_rows x rows
      simp only [List.map_cons] at hscan
      simp [hscan, sortInPlace]
    · simpa [Slice.toList, hswaps] using foldl_Swap_perm swaps (x :: rows)
    · simpa [Slice.toList] using pairwise_of_IsSorted _ hsorted

/-- Witness of C1: the rows with ids "b", "a", "c" are answered as "a", "b",
"c" when `sort.Sort` is the insertion sort it runs on short slices. -/
theorem getSortedPersons_is_sorted_permutation_witness :
    (getSortedPersons insertionSort (⟨fun _ => "", .ok ()⟩ : MyProject.Context Unit)).respond
        [.rows (.ok [.ok ⟨"b", "Budi", 30⟩, .ok ⟨"a", "Ani", 25⟩, .ok ⟨"c", "Citra", 41⟩])]
      = some ⟨StatusOK, .json (.arr [person.toJson ⟨"a", "Ani", 25⟩,
          person.toJson ⟨"b", "Budi", 30⟩, person.toJson ⟨"c", "Citra", 41⟩])⟩ ∧
    ∃ out : Slice person,
      (getSortedPersons insertionSort (⟨fun _ => "", .ok ()⟩ : MyProject.Context Unit)).respond
          [.rows (.ok ([⟨"b", "Budi", 30⟩, ⟨"a", "Ani", 25⟩, ⟨"c", "Citra", 41⟩].map .ok))]
        = some ⟨StatusOK, .json (out.toJson person.toJson)⟩ ∧
      out.toList.Perm [⟨"b", "Budi", 30⟩, ⟨"a", "Ani", 25⟩, ⟨"c", "Citra", 41⟩] ∧
      out.toList.Pairwise (fun a b => stringLess b.ID a.ID = false) :=
  ⟨by
      have hsorted : insertionSort [⟨"b", "Budi", 30⟩, ⟨"a", "Ani", 25⟩, ⟨"c", "Citra", 41⟩]
          = [⟨"a", "Ani", 25⟩, ⟨"b", "Budi", 30⟩, ⟨"c", "Citra", 41⟩] := by decide
      simp [scanAll, Slice.append, Slice.toList, sortInPlace, Slice.toJson, hsorted],
    getSortedPersons_is_sorted_permutation insertionSort Unit ⟨fun _ => "", .ok ()⟩
      [⟨"b", "Budi", 30⟩, ⟨"a", "Ani", 25⟩, ⟨"c", "Citra", 41⟩]
      ⟨⟨[(1, 0)], by decide, by decide⟩, by decide⟩⟩

end SortedPersons

/-! ### Login -/

/-- C2: for a login request whose body binds, the run in which no patient has
the supplied nik and the run in which a patient is found whose stored password
differs from the supplied one are the same in everything the handler does (the
response, the log and the statement issued), and the response is 401 with the
text "Invalid NIK or password". -/
theorem login_failures_are_indistinguishable (c : ClinicGo.Context ClinicGo.Credentials)
    (credentials : ClinicGo.Credentials) (patient : ClinicGo.Patient)
    (hbind : c.Bind = .ok credentials)
    (hpassword : patient.Password ≠ credentials.Password) :
    (ClinicGo.login c).run [.row (.error .ErrNoRows)]
        = (ClinicGo.login c).run [.row (.ok patient)] ∧
      (ClinicGo.login c).respond [.row (.error .ErrNoRows)]
        = some ⟨StatusUnauthorized, .text "Invalid NIK or password"⟩ ∧
      (ClinicGo.login c).respond [.row (.ok patient)]
        = some ⟨StatusUnauthorized, .text "Invalid NIK or password"⟩ := by
  simp [hbind, hpassword]

/-- Witness of C2: nik "3174" is looked up with password "guess" while the
stored password is "s3cret". -/
theorem login_failures_are_indistinguishable_witness :
    (ClinicGo.login ⟨fun _ => "", .ok ⟨"3174", "guess"⟩⟩).run [.row (.error .ErrNoRows)]
        = (ClinicGo.login ⟨fun _ => "", .ok ⟨"3174", "guess"⟩⟩).run
            [.row (.ok ⟨7, "3174", "Ani", "F", "1990-01-01", "Jl. Merdeka 1", "s3cret",
              "2024-01-01", "2024-01-02"⟩)] ∧
      (ClinicGo.login ⟨fun _ => "", .ok ⟨"3174", "guess"⟩⟩).respond [.row (.error .ErrNoRows)]
        = some ⟨StatusUnauthorized, .text "Invalid NIK or password"⟩ ∧
      (ClinicGo.login ⟨fun _ => "", .ok ⟨"3174", "guess"⟩⟩).respond
          [.row (.ok ⟨7, "3174", "Ani", "F", "1990-01-01", "Jl. Merdeka 1", "s3cret",
            "2024-01-01", "2024-01-02"⟩)]
        = some ⟨StatusUnauthorized, .text "Invalid NIK or password"⟩ :=
  login_failures_are_indistinguishable ⟨fun _ => "", .ok ⟨"3174", "guess"⟩⟩ ⟨"3174", "guess"⟩
    ⟨7, "3174", "Ani", "F", "1990-01-01", "Jl. Merdeka 1", "s3cret", "2024-01-01",
      "2024-01-02"⟩ rfl (by decide)

/-- C3: for a login request whose body binds and any answer of the patient
lookup, the handler returns, and its status is 200 exactly when a patient row was
found whose stored password equals the supplied one; the body is then the JSON
encoding of the row as stored, with its `password` member. -/
theorem login_succeeds_iff_password_matches (c : ClinicGo.Context ClinicGo.Credentials)
    (credentials : ClinicGo.Credentials) (hbind : c.Bind = .ok credentials)
    (answer : Except GoError ClinicGo.Patient) :
    ∃ resp, (ClinicGo.login c).respond [.row answer] = some resp ∧
      (resp.status = StatusOK ↔
        ∃ patient, answer = .ok patient ∧ patient.Password = credentials.Password) ∧
      ∀ patient, answer = .ok patient → patient.Password = credentials.Password →
        resp.body = .json patient.toJson ∧
        ∃ members, patient.toJson = .obj members ∧
          ("password", Json.str patient.Password) ∈ members := by
  rcases answer with err | patient
  · by_cases herr : err = .ErrNoRows <;> simp [hbind, herr]
  · by_cases hpw : patient.Password = credentials.Password
    · simp [hbind, hpw, ClinicGo.Patient.toJson]
    · simp [hbind, hpw]

/-- Witness of C3: the stored password "s3cret" is supplied. -/
theorem login_succeeds_iff_password_matches_witness :
    ∃ resp, (ClinicGo.login ⟨fun _ => "", .ok ⟨"3174", "s3cret"⟩⟩).respond
        [.row (.ok ⟨7, "3174", "Ani", "F", "1990-01-01", "Jl. Merdeka 1", "s3cret",
          "2024-01-01", "2024-01-02"⟩)] = some resp ∧ resp.status = StatusOK := by
  obtain ⟨resp, hrun, hstatus, _⟩ :=
    login_succeeds_iff_password_matches ⟨fun _ => "", .ok ⟨"3174", "s3cret"⟩⟩
      ⟨"3174", "s3cret"⟩ rfl
      (.ok ⟨7, "3174", "Ani", "F", "1990-01-01", "Jl. Merdeka 1", "s3cret", "2024-01-01",
        "2024-01-02"⟩)
  exact ⟨resp, hrun, hstatus.mpr ⟨_, rfl, rfl⟩⟩

/-! ### Path ids -/

/-- C4: when the path id is not a valid integer, every clinic get-by-id, update
and delete handler answers 400 with a fixed text without calling the database:
the handler is a leaf of its tree, so on every database the state is unchanged
and no statement is issued. -/
theorem malformed_id_is_rejected_before_the_database (r : ClinicGo.Resource)
    (Param : String → String) (e : GoError) (h : Atoi (Param "id") = .error e) :
    (∀ (β : Type) (bind : Except GoError β),
      (ClinicGo.getHandler r (⟨Param, bind⟩ : ClinicGo.Context β)).RejectsBeforeDatabase) ∧
    (∀ (bind : Except GoError r.Record) (now : Time),
      (ClinicGo.updateHandler r ⟨Param, bind⟩ now).RejectsBeforeDatabase) ∧
    (∀ (β : Type) (bind : Except GoError β),
      (ClinicGo.deleteHandler r (⟨Param, bind⟩ : ClinicGo.Context β)).RejectsBeforeDatabase) := by
  cases r <;> simp [Action.RejectsBeforeDatabase, h]

/-- Witness of C4: the path id "abc" on the users resource. -/
theorem malformed_id_is_rejected_before_the_database_witness :
    Atoi "abc" = .error (.other "strconv.Atoi: invalid syntax") ∧
    (∀ (β : Type) (bind : Except GoError β),
      (ClinicGo.getHandler .users
        (⟨fun _ => "abc", bind⟩ : ClinicGo.Context β)).RejectsBeforeDatabase) ∧
    (∀ (bind : Except GoError ClinicGo.User) (now : Time),
      (ClinicGo.updateHandler .users ⟨fun _ => "abc", bind⟩ now).RejectsBeforeDatabase) ∧
    (∀ (β : Type) (bind : Except GoError β),
      (ClinicGo.deleteHandler .users
        (⟨fun _ => "abc", bind⟩ : ClinicGo.Context β)).RejectsBeforeDatabase) :=
  ⟨by decide, malformed_id_is_rejected_before_the_database .users (fun _ => "abc")
    (.other "strconv.Atoi: invalid syntax") (by decide)⟩

/-! ### Lists, lookups, updates and deletes that find no row -/

/-- C5: when the list query succeeds and yields no row, each of the six clinic
list handlers answers 200 with the empty JSON array, whereas `getSortedPersons`
answers 200 with the JSON value `null`, whatever `sort.Sort` does: its slice is
declared without `make` and is still nil when it is encoded. -/
theorem empty_list_is_array_in_clinic_and_null_for_persons :
    (∀ (r : ClinicGo.Resource) (β : Type) (c : ClinicGo.Context β),
      (ClinicGo.listHandler r c).respond [.rows (.ok [])]
        = some ⟨StatusOK, .json (.arr [])⟩) ∧
    (∀ (sortSort : MyProject.sortedPersons → MyProject.sortedPersons) (β : Type)
        (c : MyProject.Context β),
      (MyProject.getSortedPersons sortSort c).respond [.rows (.ok [])]
        = some ⟨StatusOK, .json .null⟩) := by
  refine ⟨fun r β c => ?_, fun sortSort β c => ?_⟩
  · cases r <;> simp [ClinicGo.scanSkipping, scanAll, Slice.make, Slice.toJson]
  · simp [scanAll, MyProject.sortInPlace, Slice.toJson]

/-- Counterexample to C6: `deletePerson` on a DELETE that succeeds and affects no
row answers 404 "Person not found". -/
theorem deletePerson_zero_rows_is_not_found :
    (MyProject.deletePerson (⟨fun _ => "42", .ok ()⟩ : MyProject.Context Unit)).respond
        [.result (.ok ⟨(0, none), (0, none)⟩)]
      = some ⟨StatusNotFound, .json (MyProject.H "message" "Person not found")⟩ := by
  simp

/-- C6, amended: when the DELETE executes without a database error and affects
no row, every clinic delete handler still answers with success (204 without body
for transactions, 200 with the confirmation text for the other five), while
`deletePerson` answers 404 "Person not found". -/
theorem delete_of_missing_row (r : ClinicGo.Resource) (Param : String → String) (id : Int)
    (result : Result) (hid : Atoi (Param "id") = .ok id)
    (hzero : result.RowsAffected = (0, none)) :
    (∀ (β : Type) (bind : Except GoError β),
      (ClinicGo.deleteHandler r (⟨Param, bind⟩ : ClinicGo.Context β)).respond
          [.result (.ok result)]
        = some (if r = .transactions then ⟨StatusNoContent, .empty⟩
            else ⟨StatusOK, .text (r.entity ++ " with ID " ++ toString id ++ " deleted")⟩)) ∧
    (∀ (β : Type) (c : MyProject.Context β),
      (MyProject.deletePerson c).respond [.result (.ok result)]
        = some ⟨StatusNotFound, .json (MyProject.H "message" "Person not found")⟩) := by
  refine ⟨fun β bind => ?_, fun β c => ?_⟩
  · cases r <;> simp [hid, ClinicGo.Resource.entity]
  · simp [hzero]

/-- Witness of the amended C6: `DELETE /users/42` and `DELETE /persons/42` on
tables without such a row. -/
theorem delete_of_missing_row_witness :
    (∀ (β : Type) (bind : Except GoError β),
      (ClinicGo.deleteHandler .users (⟨fun _ => "42", bind⟩ : ClinicGo.Context β)).respond
          [.result (.ok ⟨(0, none), (0, none)⟩)]
        = some (if ClinicGo.Resource.users = .transactions then ⟨StatusNoContent, .empty⟩
            else ⟨StatusOK, .text (ClinicGo.Resource.users.entity ++ " with ID "
              ++ toString (42 : Int) ++ " deleted")⟩)) ∧
    (∀ (β : Type) (c : MyProject.Context β),
      (MyProject.deletePerson c).respond [.result (.ok ⟨(0, none), (0, none)⟩)]
        = some ⟨StatusNotFound, .json (MyProject.H "message" "Person not found")⟩) :=
  delete_of_missing_row .users (fun _ => "42") 42 ⟨(0, none), (0, none)⟩ (by decide) rfl

/-- C7, as the code has it: in `getPersonById` every error of the lookup, not
only `sql.ErrNoRows`, is answered with 404 "Person not found"; a failure of the
database is reported as a missing row. -/
theorem getPersonById_reports_every_error_as_not_found (β : Type)
    (c : MyProject.Context β) (err : GoError) :
    (MyProject.getPersonById c).respond [.row (.error err)]
      = some ⟨StatusNotFound, .json (MyProject.H "message" "Person not found")⟩ := by
  simp

/-- The clinic side of C7: a get-by-id handler answers 404 with the entity's
"not found" text when the lookup finds no row, and 500 on any other error. -/
theorem clinic_get_by_id_errors (r : ClinicGo.Resource) (Param : String → String) (id : Int)
    (hid : Atoi (Param "id") = .ok id) (β : Type) (bind : Except GoError β) :
    (ClinicGo.getHandler r (⟨Param, bind⟩ : ClinicGo.Context β)).respond
        [.row (.error .ErrNoRows)]
      = some ⟨StatusNotFound, .text (r.entity ++ " not found")⟩ ∧
    ∀ err, err ≠ .ErrNoRows →
      ∃ msg, (ClinicGo.getHandler r (⟨Param, bind⟩ : ClinicGo.Context β)).respond
        [.row (.error err)] = some ⟨StatusInternalServerError, .text msg⟩ := by
  cases r <;> simp +contextual [hid, ClinicGo.Resource.entity]

/-- C8: when the path id is an integer, the body binds and the UPDATE executes
without a database error, every clinic update handler returns and answers 200,
whatever the `sql.Result` says about the rows affected. -/
theorem update_succeeds_without_existence_check (r : ClinicGo.Resource)
    (c : ClinicGo.Context r.Record) (now : Time) (id : Int) (body : r.Record)
    (result : Result) (hid : Atoi (c.Param "id") = .ok id) (hbind : c.Bind = .ok body) :
    ∃ resp, (ClinicGo.updateHandler r c now).respond [.result (.ok result)] = some resp ∧
      resp.status = StatusOK := by
  cases r <;> simp [hid, hbind]

/-- Witness of C8: `PUT /users/99` on a table without row 99 (no row affected). -/
theorem update_succeeds_without_existence_check_witness :
    ∃ resp, (ClinicGo.updateHandler .users ⟨fun _ => "99", .ok ⟨0, "Ani", "ani@x.id", "", ""⟩⟩
        ⟨0⟩).respond [.result (.ok ⟨(0, none), (0, none)⟩)] = some resp ∧
      resp.status = StatusOK :=
  update_succeeds_without_existence_check .users
    ⟨fun _ => "99", .ok ⟨0, "Ani", "ani@x.id", "", ""⟩⟩ ⟨0⟩ 99 ⟨0, "Ani", "ani@x.id", "", ""⟩
    ⟨(0, none), (0, none)⟩ (by decide) rfl

/-! ### Lists with rows that do not scan -/

/-- Counterexample to C9: `getAllTransactions` answers 500 when one row of the
result set does not scan, although another row does. -/
theorem getAllTransactions_fails_on_one_bad_row :
    (ClinicGo.getAllTransactions (⟨fun _ => "", .ok ()⟩ : ClinicGo.Context Unit)).respond
        [.rows (.ok [.ok ⟨1, 2, 3, ⟨0⟩, ⟨0⟩, "IDR", "", "", ""⟩,
          .error (.other "sql: Scan error on column index 6")])]
      = some ⟨StatusInternalServerError, .text "Failed to scan transactions"⟩ := by
  simp [scanAll]

/-- C9, amended: on a result set in which some rows fail to scan, the list
handlers of users, appointments, drugs, patients and doctors answer 200 with
exactly the rows that scanned, in their original order; `getAllTransactions`
does so only when every row scans, and answers 500 "Failed to scan transactions"
as soon as one row fails. -/
theorem list_with_failing_rows (r : ClinicGo.Resource) (β : Type) (c : ClinicGo.Context β)
    (rows : List (Except GoError r.Record)) :
    (ClinicGo.listHandler r c).respond [.rows (.ok rows)]
      = some (if r = .transactions ∧ rows.any (fun row => !row.isOk) = true then
          ⟨StatusInternalServerError, .text "Failed to scan transactions"⟩
        else
          ⟨StatusOK, .json (.arr ((rows.filterMap Except.toOption).map r.toJson))⟩) := by
  cases r
  case transactions =>
    cases h : rows.any (fun row => !row.isOk)
    · simp [Slice.make, scanAll_of_no_failing_row rows [] h, Slice.toJson,
        ClinicGo.Resource.toJson, h]
    · obtain ⟨err, herr⟩ := scanAll_of_failing_row rows Slice.make h
      simp [herr, h]
  all_goals
    simp [scanSkipping_records, Slice.make, Slice.toList, Slice.toJson,
      ClinicGo.Resource.toJson]

/-! ### Error texts -/

@[simp] theorem eraseText_eq_ErrNoRows (err : GoError) :
    err.eraseText = .ErrNoRows ↔ err = .ErrNoRows := by
  cases err <;> simp [GoError.eraseText]

theorem filterMap_eraseScanError {ρ : Type} (rows : List (Except GoError ρ)) :
    (rows.map eraseScanError).filterMap Except.toOption = rows.filterMap Except.toOption := by
  induction rows with
  | nil => rfl
  | cons row rows ih => cases row <;> simp [eraseScanError, Except.toOption, ih]

@[simp] theorem toOption_eraseScanError {ρ : Type} (x : Except GoError ρ) :
    (eraseScanError x).toOption = x.toOption := by
  cases x <;> rfl

@[simp] theorem toOption_comp_eraseScanError {ρ : Type} :
    (Except.toOption ∘ eraseScanError : Except GoError ρ → Option ρ) = Except.toOption := by
  funext x
  cases x <;> rfl

theorem scanAll_eraseScanError {ρ : Type} (rows : List (Except GoError ρ)) (acc : Slice ρ) :
    scanAll (rows.map eraseScanError) acc = eraseScanError (scanAll rows acc) := by
  induction rows generalizing acc with
  | nil => rfl
  | cons row rows ih => cases row <;> simp [eraseScanError, scanAll, ih]

set_option maxHeartbeats 4000000 in
/-- The response of a clinic list handler is a function of the answer with the
error texts erased. -/
theorem listHandler_respond_erased (r : ClinicGo.Resource) (β : Type) (c : ClinicGo.Context β)
    (a : Answer r.Record) :
    (ClinicGo.listHandler r c).respond [a]
      = (ClinicGo.listHandler r c).respond [a.eraseErrorText] := by
  rcases a with (err | rows) | (err | record) | (err | result)
  · cases r <;> simp [Answer.eraseErrorText]
  · cases r
    case transactions =>
      simp only [Answer.eraseErrorText, ClinicGo.listHandler, ClinicGo.getAllTransactions,
        Action.respond, Action.run, scanAll_eraseScanError]
      cases scanAll rows Slice.make <;> simp [eraseScanError]
    all_goals
      simp [Answer.eraseErrorText, scanSkipping_records, Slice.make, filterMap_eraseScanError]
  all_goals cases r <;> simp [Answer.eraseErrorText, eraseScanError]

set_option maxHeartbeats 4000000 in
/-- The response of a clinic get-by-id handler is a function of the answer with
the error texts erased. -/
theorem getHandler_respond_erased (r : ClinicGo.Resource) (β : Type) (c : ClinicGo.Context β)
    (a : Answer r.Record) :
    (ClinicGo.getHandler r c).respond [a]
      = (ClinicGo.getHandler r c).respond [a.eraseErrorText] := by
  cases hid : Atoi (c.Param "id") with
  | error e => cases r <;> simp [hid]
  | ok id =>
    rcases a with (err | rows) | ((_ | text) | record) | (err | result) <;> cases r <;>
      simp [Answer.eraseErrorText, eraseScanError, GoError.eraseText, hid]


set_option maxHeartbeats 4000000 in
/-- The response of a clinic create handler is a function of the answer with the
error texts erased. -/
theorem createHandler_respond_erased (r : ClinicGo.Resource) (c : ClinicGo.Context r.Record)
    (now1 now2 : Time) (a : Answer r.Record) :
    (ClinicGo.createHandler r c now1 now2).respond [a]
      = (ClinicGo.createHandler r c now1 now2).respond [a.eraseErrorText] := by
  rcases c with ⟨Param, bind⟩
  rcases a with (err | rows) | (err | record) | (err | ⟨⟨id, _ | err⟩, affected⟩) <;>
    cases r <;> cases bind <;>
      simp [Answer.eraseErrorText, eraseScanError, Result.eraseErrorText]

set_option maxHeartbeats 4000000 in
/-- The response of a clinic update handler is a function of the answer with the
error texts erased. -/
theorem updateHandler_respond_erased (r : ClinicGo.Resource) (c : ClinicGo.Context r.Record)
    (now : Time) (a : Answer r.Record) :
    (ClinicGo.updateHandler r c now).respond [a]
      = (ClinicGo.updateHandler r c now).respond [a.eraseErrorText] := by
  rcases c with ⟨Param, bind⟩
  cases hid : Atoi (Param "id") with
  | error e => cases r <;> simp [hid]
  | ok id =>
    rcases a with (err | rows) | (err | record) | (err | result) <;>
      cases r <;> cases bind <;>
        simp [Answer.eraseErrorText, eraseScanError, hid]

set_option maxHeartbeats 4000000 in
/-- The response of a clinic delete handler is a function of the answer with the
error texts erased. -/
theorem deleteHandler_respond_erased (r : ClinicGo.Resource) (β : Type) (c : ClinicGo.Context β)
    (a : Answer r.Record) :
    (ClinicGo.deleteHandler r c).respond [a]
      = (ClinicGo.deleteHandler r c).respond [a.eraseErrorText] := by
  cases hid : Atoi (c.Param "id") with
  | error e => cases r <;> simp [hid]
  | ok id =>
    rcases a with (err | rows) | (err | record) | (err | result) <;> cases r <;>
      simp [Answer.eraseErrorText, eraseScanError, hid]

set_option maxHeartbeats 4000000 in
/-- The response of `login` is a function of the answer with the error texts
erased. -/
theorem login_respond_erased (c : ClinicGo.Context ClinicGo.Credentials)
    (a : Answer ClinicGo.Patient) :
    (ClinicGo.login c).respond [a] = (ClinicGo.login c).respond [a.eraseErrorText] := by
  rcases c with ⟨Param, bind⟩
  rcases a with (err | rows) | ((_ | text) | record) | (err | result) <;> cases bind <;>
    simp [Answer.eraseErrorText, eraseScanError, GoError.eraseText]

/-- The response of `getPersonById` is a function of the answer with the error
texts erased. -/
theorem getPersonById_respond_erased (β : Type) (c : MyProject.Context β)
    (a : Answer MyProject.person) :
    (MyProject.getPersonById c).respond [a]
      = (MyProject.getPersonById c).respond [a.eraseErrorText] := by
  rcases a with (err | rows) | (err | record) | (err | result) <;>
    simp [Answer.eraseErrorText, eraseScanError]

/-- Counterexample to C10: two runs of `getSortedPersons` in which the query
fails, differing only in the text of the error, are answered with different
bodies. -/
theorem getSortedPersons_leaks_error_text :
    (Answer.rows (.error (.other "dial tcp 127.0.0.1:3306: connection refused")) :
        Answer MyProject.person).eraseErrorText
      = (Answer.rows (.error (.other "Error 1146: no such table"))).eraseErrorText ∧
    (MyProject.getSortedPersons id (⟨fun _ => "", .ok ()⟩ : MyProject.Context Unit)).respond
        [.rows (.error (.other "dial tcp 127.0.0.1:3306: connection refused"))]
      ≠ (MyProject.getSortedPersons id (⟨fun _ => "", .ok ()⟩ : MyProject.Context Unit)).respond
        [.rows (.error (.other "Error 1146: no such table"))] := by
  refine ⟨rfl, ?_⟩
  simp [MyProject.H, GoError.Error]

/-- What the person registry does with a database failure: `getSortedPersons`,
`createPersons` and `deletePerson` answer 500 with the text of the error in the
member `error` of the body. -/
theorem person_handlers_echo_error_text (err : GoError) :
    (∀ (sortSort : MyProject.sortedPersons → MyProject.sortedPersons) (β : Type)
        (c : MyProject.Context β),
      (MyProject.getSortedPersons sortSort c).respond [.rows (.error err)]
        = some ⟨StatusInternalServerError, .json (MyProject.H "error" err.Error)⟩) ∧
    (∀ (sortSort : MyProject.sortedPersons → MyProject.sortedPersons) (β : Type)
        (c : MyProject.Context β) (p : MyProject.person),
      (MyProject.getSortedPersons sortSort c).respond [.rows (.ok [.ok p, .error err])]
        = some ⟨StatusInternalServerError, .json (MyProject.H "error" err.Error)⟩) ∧
    (∀ (Param : String → String) (p : MyProject.person),
      (MyProject.createPersons ⟨Param, .ok p⟩).respond [.result (.error err)]
        = some ⟨StatusInternalServerError, .json (MyProject.H "error" err.Error)⟩) ∧
    (∀ (β : Type) (c : MyProject.Context β),
      (MyProject.deletePerson c).respond [.result (.error err)]
        = some ⟨StatusInternalServerError, .json (MyProject.H "error" err.Error)⟩) := by
  simp [scanAll]

/-- C10, amended: for every clinic handler (the five handlers of each resource
and `login`) and for `getPersonById`, two runs whose database answers differ only
in the text of the errors are answered with the same status and body.  (The
other three handlers of the person registry put the text of the error in the
body.) -/
theorem response_independent_of_error_text (r : ClinicGo.Resource)
    (c : ClinicGo.Context r.Record) (now1 now2 : Time) (a1 a2 : Answer r.Record)
    (cl : ClinicGo.Context ClinicGo.Credentials) (l1 l2 : Answer ClinicGo.Patient)
    (p1 p2 : Answer MyProject.person)
    (ha : a1.eraseErrorText = a2.eraseErrorText)
    (hl : l1.eraseErrorText = l2.eraseErrorText)
    (hp : p1.eraseErrorText = p2.eraseErrorText) :
    (∀ (β : Type) (cb : ClinicGo.Context β),
      (ClinicGo.listHandler r cb).respond [a1] = (ClinicGo.listHandler r cb).respond [a2]) ∧
    (∀ (β : Type) (cb : ClinicGo.Context β),
      (ClinicGo.getHandler r cb).respond [a1] = (ClinicGo.getHandler r cb).respond [a2]) ∧
    (ClinicGo.createHandler r c now1 now2).respond [a1]
      = (ClinicGo.createHandler r c now1 now2).respond [a2] ∧
    (ClinicGo.updateHandler r c now1).respond [a1]
      = (ClinicGo.updateHandler r c now1).respond [a2] ∧
    (∀ (β : Type) (cb : ClinicGo.Context β),
      (ClinicGo.deleteHandler r cb).respond [a1]
        = (ClinicGo.deleteHandler r cb).respond [a2]) ∧
    (ClinicGo.login cl).respond [l1] = (ClinicGo.login cl).respond [l2] ∧
    (∀ (β : Type) (cb : MyProject.Context β),
      (MyProject.getPersonById cb).respond [p1]
        = (MyProject.getPersonById cb).respond [p2]) := by
  refine ⟨fun β cb => ?_, fun β cb => ?_, ?_, ?_, fun β cb => ?_, ?_, fun β cb => ?_⟩
  · rw [listHandler_respond_erased, ha, ← listHandler_respond_erased]
  · rw [getHandler_respond_erased, ha, ← getHandler_respond_erased]
  · rw [createHandler_respond_erased, ha, ← createHandler_respond_erased]
  · rw [updateHandler_respond_erased, ha, ← updateHandler_respond_erased]
  · rw [deleteHandler_respond_erased, ha, ← deleteHandler_respond_erased]
  · rw [login_respond_erased, hl, ← login_respond_erased]
  · rw [getPersonById_respond_erased, hp, ← getPersonById_respond_erased]

/-- Witness of the amended C10: the lookup of user 7, of the patient with nik
"3174" and of person "a" each fail once with a refused connection and once with
a timeout. -/
theorem response_independent_of_error_text_witness :
    (∀ (β : Type) (cb : ClinicGo.Context β),
      (ClinicGo.getHandler .users cb).respond
          [.row (.error (.other "dial tcp: connection refused"))]
        = (ClinicGo.getHandler .users cb).respond [.row (.error (.other "i/o timeout"))]) ∧
    (ClinicGo.login ⟨fun _ => "", .ok ⟨"3174", "guess"⟩⟩).respond
        [.row (.error (.other "dial tcp: connection refused"))]
      = (ClinicGo.login ⟨fun _ => "", .ok ⟨"3174", "guess"⟩⟩).respond
        [.row (.error (.other "i/o timeout"))] ∧
    (∀ (β : Type) (cb : MyProject.Context β),
      (MyProject.getPersonById cb).respond
          [.row (.error (.other "dial tcp: connection refused"))]
        = (MyProject.getPersonById cb).respond [.row (.error (.other "i/o timeout"))]) :=
  have h := response_independent_of_error_text .users
    ⟨fun _ => "7", .ok ⟨0, "Ani", "ani@x.id", "", ""⟩⟩ ⟨0⟩ ⟨0⟩
    (.row (.error (.other "dial tcp: connection refused")))
    (.row (.error (.other "i/o timeout")))
    ⟨fun _ => "", .ok ⟨"3174", "guess"⟩⟩
    (.row (.error (.other "dial tcp: connection refused")))
    (.row (.error (.other "i/o timeout")))
    (.row (.error (.other "dial tcp: connection refused")))
    (.row (.error (.other "i/o timeout"))) rfl rfl rfl
  ⟨h.2.1, h.2.2.2.2.2.1, h.2.2.2.2.2.2⟩

/-! ### Created, updated and deleted records -/

theorem uint_of_nonneg (n : Int) (h0 : 0 ≤ n) (h1 : n < 2 ^ 63) : (uint n : Int) = n := by
  unfold uint
  rw [Int.toNat_of_nonneg (Int.emod_nonneg _ (by norm_num))]
  exact Int.emod_eq_of_lt h0 (by omega)

/-- C11: when the body binds, the insert succeeds and the database reports the
id it assigned (an `int64` that is not negative), every clinic create handler
answers 201 with the bound record in which the id is the last-insert id and every
other field is as bound; `createPersons` answers 201 with the bound record as it
is, its id being the one of the input. -/
theorem create_echoes_input_with_assigned_id (r : ClinicGo.Resource)
    (c : ClinicGo.Context r.Record) (now1 now2 : Time) (body : r.Record) (result : Result)
    (id : Int) (p : MyProject.Context MyProject.person) (newPerson : MyProject.person)
    (presult : Result)
    (hbind : c.Bind = .ok body) (hid : result.LastInsertId = (id, none))
    (hrange : 0 ≤ id ∧ id < 2 ^ 63) (hp : p.BindJSON = .ok newPerson) :
    (∃ created : r.Record,
      (ClinicGo.createHandler r c now1 now2).respond [.result (.ok result)]
        = some ⟨StatusCreated, .json (r.toJson created)⟩ ∧
      r.ID created = id ∧ r.clearID created = r.clearID body) ∧
    (MyProject.createPersons p).respond [.result (.ok presult)]
      = some ⟨StatusCreated, .json newPerson.toJson⟩ := by
  have hu := uint_of_nonneg id hrange.1 hrange.2
  refine ⟨?_, by simp [hp]⟩
  rcases c with ⟨Param, bind⟩
  cases r <;> simp at hbind <;> subst hbind
  · exact ⟨({ body with ID := uint id } : ClinicGo.User),
      by simp [hid, ClinicGo.Resource.toJson], by simpa [ClinicGo.Resource.ID] using hu, rfl⟩
  · exact ⟨({ body with ID := uint id } : ClinicGo.PatientAppointment),
      by simp [hid, ClinicGo.Resource.toJson], by simpa [ClinicGo.Resource.ID] using hu, rfl⟩
  · exact ⟨({ body with ID := uint id } : ClinicGo.Drug),
      by simp [hid, ClinicGo.Resource.toJson], by simpa [ClinicGo.Resource.ID] using hu, rfl⟩
  · exact ⟨({ body with ID := uint id } : ClinicGo.Patient),
      by simp [hid, ClinicGo.Resource.toJson], by simpa [ClinicGo.Resource.ID] using hu, rfl⟩
  · exact ⟨({ body with ID := id } : ClinicGo.Doctor),
      by simp [hid, ClinicGo.Resource.toJson], by simp [ClinicGo.Resource.ID], rfl⟩
  · exact ⟨({ body with ID := uint id } : ClinicGo.Transaction),
      by simp [hid, ClinicGo.Resource.toJson], by simpa [ClinicGo.Resource.ID] using hu, rfl⟩


/-- Witness of C11: a user is created and the database assigns the id 12. -/
theorem create_echoes_input_with_assigned_id_witness :
    (∃ created : ClinicGo.User,
      (ClinicGo.createHandler .users ⟨fun _ => "", .ok ⟨99, "Ani", "ani@x.id", "", ""⟩⟩
          ⟨0⟩ ⟨0⟩).respond [.result (.ok ⟨(12, none), (1, none)⟩)]
        = some ⟨StatusCreated, .json (ClinicGo.Resource.users.toJson created)⟩ ∧
      ClinicGo.Resource.users.ID created = 12 ∧
      ClinicGo.Resource.users.clearID created
        = ClinicGo.Resource.users.clearID ⟨99, "Ani", "ani@x.id", "", ""⟩) ∧
    (MyProject.createPersons ⟨fun _ => "", .ok ⟨"a", "Ani", 25⟩⟩).respond
        [.result (.ok ⟨(0, none), (1, none)⟩)]
      = some ⟨StatusCreated, .json (MyProject.person.toJson ⟨"a", "Ani", 25⟩)⟩ :=
  create_echoes_input_with_assigned_id .users
    ⟨fun _ => "", .ok ⟨99, "Ani", "ani@x.id", "", ""⟩⟩ ⟨0⟩ ⟨0⟩ ⟨99, "Ani", "ani@x.id", "", ""⟩
    ⟨(12, none), (1, none)⟩ 12 ⟨fun _ => "", .ok ⟨"a", "Ani", 25⟩⟩ ⟨"a", "Ani", 25⟩
    ⟨(0, none), (1, none)⟩ rfl rfl (by decide) rfl

/-- The integers `strconv.Atoi` returns are those of a 64-bit `int`. -/
theorem Atoi_range (s : String) (n : Int) (h : Atoi s = .ok n) :
    -(2 : Int) ^ 63 ≤ n ∧ n < 2 ^ 63 := by
  unfold Atoi at h
  simp only at h
  split at h
  · cases h
  · split_ifs at h
    all_goals
      split at h
      · cases h
      · split_ifs at h
        all_goals first
          | (cases h; done)
          | (cases h; constructor <;> push_cast <;> omega)

/-- Counterexample to C12: `PUT /users/:id` with the path id -1 answers 200 with the id
18446744073709551615 in the body, not the path id -1. -/
theorem updateUser_negative_id_wraps :
    Atoi "-1" = .ok (-1) ∧
    (ClinicGo.updateUser ⟨fun _ => "-1", .ok ⟨0, "Ani", "ani@x.id", "", ""⟩⟩).respond
        [.result (.ok ⟨(0, none), (0, none)⟩)]
      = some ⟨StatusOK, .json (.obj [("id", .num 18446744073709551615), ("name", .str "Ani"),
          ("email", .str "ani@x.id"), ("created_at", .str ""), ("updated_at", .str "")])⟩ := by
  refine ⟨by decide, ?_⟩
  have h : Atoi "-1" = .ok (-1) := by decide
  have hu : uint (-1) = 18446744073709551615 := by decide
  simp [h, hu, ClinicGo.User.toJson]

/-- C12, amended: when the path id parses as an integer that is not negative
(for `updateDoctor`, whose record has a signed id, as any integer), the body binds
and the UPDATE succeeds, every clinic update handler answers 200 with the bound
record in which the id is the path id and every other field is as bound. -/
theorem update_echoes_input_with_path_id (r : ClinicGo.Resource)
    (c : ClinicGo.Context r.Record) (now : Time) (id : Int) (body : r.Record)
    (result : Result) (hid : Atoi (c.Param "id") = .ok id) (hbind : c.Bind = .ok body)
    (hsign : 0 ≤ id ∨ r = .doctors) :
    ∃ updated : r.Record,
      (ClinicGo.updateHandler r c now).respond [.result (.ok result)]
        = some ⟨StatusOK, .json (r.toJson updated)⟩ ∧
      r.ID updated = id ∧ r.clearID updated = r.clearID body := by
  have hrange := Atoi_range _ _ hid
  have hu : 0 ≤ id → (uint id : Int) = id := fun h0 => uint_of_nonneg id h0 hrange.2
  rcases c with ⟨Param, bind⟩
  cases r <;> simp at hbind hsign <;> subst hbind
  · exact ⟨({ body with ID := uint id } : ClinicGo.User),
      by simp [hid, ClinicGo.Resource.toJson], by simpa [ClinicGo.Resource.ID] using hu hsign,
      rfl⟩
  · exact ⟨({ body with ID := uint id } : ClinicGo.PatientAppointment),
      by simp [hid, ClinicGo.Resource.toJson], by simpa [ClinicGo.Resource.ID] using hu hsign,
      rfl⟩
  · exact ⟨({ body with ID := uint id } : ClinicGo.Drug),
      by simp [hid, ClinicGo.Resource.toJson], by simpa [ClinicGo.Resource.ID] using hu hsign,
      rfl⟩
  · exact ⟨({ body with ID := uint id } : ClinicGo.Patient),
      by simp [hid, ClinicGo.Resource.toJson], by simpa [ClinicGo.Resource.ID] using hu hsign,
      rfl⟩
  · exact ⟨({ body with ID := id } : ClinicGo.Doctor),
      by simp [hid, ClinicGo.Resource.toJson], by simp [ClinicGo.Resource.ID], rfl⟩
  · exact ⟨({ body with ID := uint id } : ClinicGo.Transaction),
      by simp [hid, ClinicGo.Resource.toJson], by simpa [ClinicGo.Resource.ID] using hu hsign,
      rfl⟩

/-- Witness of the amended C12: `PUT /users/:id` with the path id 0 and
`PUT /doctors/:id` with the path id -3. -/
theorem update_echoes_input_with_path_id_witness :
    (∃ updated : ClinicGo.User,
      (ClinicGo.updateHandler .users ⟨fun _ => "0", .ok ⟨5, "Ani", "ani@x.id", "", ""⟩⟩
          ⟨0⟩).respond [.result (.ok ⟨(0, none), (0, none)⟩)]
        = some ⟨StatusOK, .json (ClinicGo.Resource.users.toJson updated)⟩ ∧
      ClinicGo.Resource.users.ID updated = 0 ∧
      ClinicGo.Resource.users.clearID updated
        = ClinicGo.Resource.users.clearID ⟨5, "Ani", "ani@x.id", "", ""⟩) ∧
    (∃ updated : ClinicGo.Doctor,
      (ClinicGo.updateHandler .doctors ⟨fun _ => "-3", .ok ⟨5, 2, "Gigi", "", "", "a.png"⟩⟩
          ⟨0⟩).respond [.result (.ok ⟨(0, none), (0, none)⟩)]
        = some ⟨StatusOK, .json (ClinicGo.Resource.doctors.toJson updated)⟩ ∧
      ClinicGo.Resource.doctors.ID updated = -3 ∧
      ClinicGo.Resource.doctors.clearID updated
        = ClinicGo.Resource.doctors.clearID ⟨5, 2, "Gigi", "", "", "a.png"⟩) :=
  ⟨update_echoes_input_with_path_id .users
      ⟨fun _ => "0", .ok ⟨5, "Ani", "ani@x.id", "", ""⟩⟩ ⟨0⟩ 0 ⟨5, "Ani", "ani@x.id", "", ""⟩
      ⟨(0, none), (0, none)⟩ (by decide) rfl (by decide),
    update_echoes_input_with_path_id .doctors
      ⟨fun _ => "-3", .ok ⟨5, 2, "Gigi", "", "", "a.png"⟩⟩ ⟨0⟩ (-3)
      ⟨5, 2, "Gigi", "", "", "a.png"⟩ ⟨(0, none), (0, none)⟩ (by decide) rfl (by decide)⟩

/-- Counterexample to C13: `DELETE /transactions/5` with a DELETE that succeeds
answers 204 with an empty body, so no message names the deleted id. -/
theorem deleteTransaction_sends_no_message :
    Atoi "5" = .ok 5 ∧
    (ClinicGo.deleteTransaction (⟨fun _ => "5", .ok ()⟩ : ClinicGo.Context Unit)).respond
        [.result (.ok ⟨(0, none), (1, none)⟩)]
      = some ⟨StatusNoContent, .empty⟩ := by
  refine ⟨by decide, ?_⟩
  have h : Atoi "5" = .ok 5 := by decide
  simp [h]

/-- C13, amended: when the path id is a valid integer and the DELETE succeeds,
the delete handlers of users, appointments, drugs, patients and doctors answer
200 with the text "<Entity> with ID <id> deleted", the id in decimal;
`deleteTransaction` answers 204 without a body. -/
theorem delete_confirmation (r : ClinicGo.Resource) (β : Type) (c : ClinicGo.Context β)
    (id : Int) (result : Result) (hid : Atoi (c.Param "id") = .ok id) :
    (ClinicGo.deleteHandler r c).respond [.result (.ok result)]
      = some (if r = .transactions then ⟨StatusNoContent, .empty⟩
          else ⟨StatusOK, .text (r.entity ++ " with ID " ++ toString id ++ " deleted")⟩) := by
  cases r <;> simp [hid, ClinicGo.Resource.entity]

/-- Witness of the amended C13: `DELETE /users/42` and `DELETE /transactions/42`. -/
theorem delete_confirmation_witness :
    (ClinicGo.deleteHandler .users (⟨fun _ => "42", .ok ()⟩ : ClinicGo.Context Unit)).respond
        [.result (.ok ⟨(0, none), (1, none)⟩)]
      = some ⟨StatusOK, .text "User with ID 42 deleted"⟩ ∧
    (ClinicGo.deleteHandler .transactions
        (⟨fun _ => "42", .ok ()⟩ : ClinicGo.Context Unit)).respond
        [.result (.ok ⟨(0, none), (1, none)⟩)]
      = some ⟨StatusNoContent, .empty⟩ :=
  ⟨delete_confirmation .users Unit ⟨fun _ => "42", .ok ()⟩ 42 ⟨(0, none), (1, none)⟩
      (by decide),
    delete_confirmation .transactions Unit ⟨fun _ => "42", .ok ()⟩ 42 ⟨(0, none), (1, none)⟩
      (by decide)⟩

/-- C15: when the request body does not bind, every clinic create and update
handler, `login` and `createPersons` answer 400 as a leaf of their tree: no
statement is issued and, on every database, the state is unchanged. -/
theorem unbound_body_is_rejected_before_the_database (r : ClinicGo.Resource)
    (c : ClinicGo.Context r.Record) (now1 now2 : Time)
    (cl : ClinicGo.Context ClinicGo.Credentials) (p : MyProject.Context MyProject.person)
    (e1 e2 e3 : GoError) (hc : c.Bind = .error e1) (hl : cl.Bind = .error e2)
    (hp : p.BindJSON = .error e3) :
    (ClinicGo.createHandler r c now1 now2).BadRequestBeforeDatabase ∧
    (ClinicGo.updateHandler r c now1).BadRequestBeforeDatabase ∧
    (ClinicGo.login cl).BadRequestBeforeDatabase ∧
    (MyProject.createPersons p).BadRequestBeforeDatabase := by
  rcases c with ⟨Param, bind⟩
  simp only at hc
  subst hc
  refine ⟨?_, ?_, by simp [Action.BadRequestBeforeDatabase, hl],
    by simp [Action.BadRequestBeforeDatabase, hp]⟩
  · cases r <;> simp [Action.BadRequestBeforeDatabase]
  · cases h : Atoi (Param "id") <;> cases r <;> simp [Action.BadRequestBeforeDatabase, h]

/-- Witness of C15: bodies that are not JSON, on the users resource, on login
and on `POST /persons`. -/
theorem unbound_body_is_rejected_before_the_database_witness :
    (ClinicGo.createHandler .users ⟨fun _ => "7", .error (.other "unexpected EOF")⟩
      ⟨0⟩ ⟨0⟩).BadRequestBeforeDatabase ∧
    (ClinicGo.updateHandler .users ⟨fun _ => "7", .error (.other "unexpected EOF")⟩
      ⟨0⟩).BadRequestBeforeDatabase ∧
    (ClinicGo.login ⟨fun _ => "", .error (.other "unexpected EOF")⟩).BadRequestBeforeDatabase ∧
    (MyProject.createPersons
      ⟨fun _ => "", .error (.other "unexpected EOF")⟩).BadRequestBeforeDatabase :=
  unbound_body_is_rejected_before_the_database .users
    ⟨fun _ => "7", .error (.other "unexpected EOF")⟩ ⟨0⟩ ⟨0⟩
    ⟨fun _ => "", .error (.other "unexpected EOF")⟩
    ⟨fun _ => "", .error (.other "unexpected EOF")⟩ _ _ _ rfl rfl rfl

/-! ### Startup of the person registry -/

/-- C14: once the database connection is established, `main` issues exactly one
statement, the INSERT of the row (id, name, age), when the flags `id` and `name`
hold a value (they are not the empty default) and `age` is strictly positive,
and no statement otherwise; when that INSERT fails, `main` returns after printing
the error, without routes and without server; in every other case it runs the
router with the four routes on localhost:8080. -/
theorem startup_insert (sqlOpen dbPing : Option GoError) (addID addFullName : String)
    (addAge : Int) (answer : Except GoError Result)
    (hinit : MyProject.initDB sqlOpen dbPing = none) :
    ∃ outcome calls,
      (MyProject.main sqlOpen dbPing addID addFullName addAge).run [.result answer]
        = some (outcome, calls) ∧
      (calls = [(.insert "persons" ["id", "FullName", "age"],
            [.string addID, .string addFullName, .int addAge])]
        ↔ addID ≠ "" ∧ addFullName ≠ "" ∧ 0 < addAge) ∧
      (calls = [] ↔ ¬ (addID ≠ "" ∧ addFullName ≠ "" ∧ 0 < addAge)) ∧
      (∀ err, addID ≠ "" ∧ addFullName ≠ "" ∧ 0 < addAge → answer = .error err →
        outcome = .returned [Println ["Error adding person:", err.Error]]) ∧
      (¬ (addID ≠ "" ∧ addFullName ≠ "" ∧ 0 < addAge) ∨ (∃ result, answer = .ok result) →
        outcome = .serving MyProject.routes "localhost:8080") := by
  by_cases hcond : addID ≠ "" ∧ addFullName ≠ "" ∧ 0 < addAge
  · cases answer with
    | error err =>
      exact ⟨.returned [Println ["Error adding person:", err.Error]], _,
        by simp [MyProject.main, hinit, hcond, Action.run]; rfl,
        by simp [hcond], by simp [hcond], by rintro e - ⟨⟩; rfl, by simp [hcond]⟩
    | ok result =>
      exact ⟨.serving MyProject.routes "localhost:8080", _,
        by simp [MyProject.main, hinit, hcond, Action.run]; rfl,
        by simp [hcond], by simp [hcond], by simp, by simp⟩
  · exact ⟨.serving MyProject.routes "localhost:8080", [],
      by simp [MyProject.main, hinit, hcond, Action.run], by simp [hcond], by simp [hcond],
      by simp [hcond], by simp⟩

/-- Witness of C14: started with `-id a -name Ani -age 25` on a database that
accepts the row. -/
theorem startup_insert_witness :
    ∃ outcome calls,
      (MyProject.main none none "a" "Ani" 25).run [.result (.ok ⟨(0, none), (1, none)⟩)]
        = some (outcome, calls) ∧
      calls = [(.insert "persons" ["id", "FullName", "age"],
            [.string "a", .string "Ani", .int 25])] ∧
      outcome = .serving MyProject.routes "localhost:8080" := by
  obtain ⟨outcome, calls, hrun, hcalls, -, -, hserve⟩ :=
    startup_insert none none "a" "Ani" 25 (.ok ⟨(0, none), (1, none)⟩) rfl
  exact ⟨outcome, calls, hrun, hcalls.mpr (by decide), hserve (Or.inr ⟨_, rfl⟩)⟩

/-! ### Create, get and delete over a table -/

theorem insert_assigns_next_id (t : Table) (columns : List String) (args : List SqlArg)
    (hk : t.Keyed) (hlen : columns.length = args.length)
    (hcols : columns.all (fun col => col ∈ t.columns) = true)
    (hid : (columns.zip args).lookup "id" = none) :
    t.insert columns args
      = (.ok ⟨(t.nextID, none), (1, none)⟩,
          { t with
            rows := t.rows ++ [("id", .int t.nextID) :: columns.zip args ++ t.defaults]
            nextID := t.nextID + 1 }) := by
  obtain ⟨-, hlt, -, -⟩ := hk
  have hfresh : t.rows.any (Row.has "id" (.int t.nextID)) = false := by
    rw [List.any_eq_false]
    intro row hrow hhas
    simp only [Row.has, beq_iff_eq] at hhas
    exact absurd (hlt row hrow _ hhas) (lt_irrefl _)
  unfold Table.insert
  rw [if_neg (by simpa [hlen] using hcols)]
  simp [hid, hfresh]

theorem find_inserted (t : Table) (hk : t.Keyed) (row : Row)
    (hrow : row.lookup "id" = some (.int t.nextID)) :
    (t.rows ++ [row]).find? (Row.has "id" (.int t.nextID)) = some row := by
  obtain ⟨-, hlt, -, -⟩ := hk
  have hnone : t.rows.find? (Row.has "id" (.int t.nextID)) = none := by
    rw [List.find?_eq_none]
    intro r hr hhas
    simp only [Row.has, beq_iff_eq] at hhas
    exact absurd (hlt r hr _ hhas) (lt_irrefl _)
  simp [List.find?_append, hnone, Row.has, hrow]

@[simp] theorem exec_done {σ ρ α : Type} (db : Database σ ρ) (a : α) (s : σ) :
    (Action.done a : Action ρ α).exec db s = (a, s, []) := rfl

@[simp] theorem exec_Exec {σ ρ α : Type} (db : Database σ ρ) (q : Stmt) (args : List SqlArg)
    (k : Except GoError Result → Action ρ α) (s : σ) :
    (Action.Exec q args k).exec db s
      = (((k (db.Exec s q args).1).exec db (db.Exec s q args).2).1,
          ((k (db.Exec s q args).1).exec db (db.Exec s q args).2).2.1,
          (q, args) :: ((k (db.Exec s q args).1).exec db (db.Exec s q args).2).2.2) := rfl

@[simp] theorem exec_QueryRow {σ ρ α : Type} (db : Database σ ρ) (q : Stmt)
    (args : List SqlArg) (k : Except GoError ρ → Action ρ α) (s : σ) :
    (Action.QueryRow q args k).exec db s
      = (((k (db.QueryRow s q args).1).exec db (db.QueryRow s q args).2).1,
          ((k (db.QueryRow s q args).1).exec db (db.QueryRow s q args).2).2.1,
          (q, args) :: ((k (db.QueryRow s q args).1).exec db (db.QueryRow s q args).2).2.2) :=
  rfl

@[simp] theorem exec_Query {σ ρ α : Type} (db : Database σ ρ) (q : Stmt)
    (args : List SqlArg) (k : Except GoError (List (Except GoError ρ)) → Action ρ α) (s : σ) :
    (Action.Query q args k).exec db s
      = (((k (db.Query s q args).1).exec db (db.Query s q args).2).1,
          ((k (db.Query s q args).1).exec db (db.Query s q args).2).2.1,
          (q, args) :: ((k (db.Query s q args).1).exec db (db.Query s q args).2).2.2) := rfl

@[simp] theorem scanString_string (formatTime : Time → String) (s : String) :
    scanString formatTime (some (.string s)) = .ok s := rfl

@[simp] theorem scanString_time (formatTime : Time → String) (t : Time) :
    scanString formatTime (some (.time t)) = .ok (formatTime t) := rfl

@[simp] theorem scanUint_uint (n : Nat) : scanUint (some (.uint n)) = .ok n := rfl

theorem scanUint_int (n : Int) (h : 0 ≤ n) : scanUint (some (.int n)) = .ok n.toNat := by
  simp [scanUint, h]

@[simp] theorem scanInt_int (n : Int) : scanInt (some (.int n)) = .ok n := rfl

@[simp] theorem scanInt_uint (n : Nat) : scanInt (some (.uint n)) = .ok (n : Int) := rfl

@[simp] theorem scanFloat64_float64 (f : float64) : scanFloat64 (some (.float64 f)) = .ok f :=
  rfl

/-! ### Rows, tables and columns of the resources -/

set_option maxHeartbeats 4000000 in
/-- The SELECT statements of a resource read `Resource.columns` from
`Resource.table`. -/
theorem select_statements (r : ClinicGo.Resource) (β : Type) (c : ClinicGo.Context β)
    (id : Int) (hid : Atoi (c.Param "id") = .ok id) (a : Except GoError r.Record)
    (rows : Except GoError (List (Except GoError r.Record))) :
    (ClinicGo.getHandler r c).calls [.row a]
      = some [(.select r.columns r.table (some "id"), [.int id])] ∧
    (ClinicGo.listHandler r c).calls [.rows rows]
      = some [(.select r.columns r.table none, [])] := by
  constructor
  · rcases a with (_ | text) | record <;> cases r <;>
      simp [Action.calls, hid, ClinicGo.Resource.table, ClinicGo.Resource.columns]
  · cases rows <;> cases r <;>
      simp [Action.calls, ClinicGo.Resource.table, ClinicGo.Resource.columns]
    split <;> simp

set_option maxHeartbeats 4000000 in
/-- Scanning the columns of a record seen as a row gives the record back: the
rows follow the destinations of the `Scan` calls. -/
theorem Scan_row (formatTime : Time → String) (r : ClinicGo.Resource) (record : r.Record) :
    r.Scan formatTime (Row.project r.columns (r.row record)) = .ok record := by
  cases r <;>
    simp [ClinicGo.Resource.Scan, ClinicGo.Resource.columns, ClinicGo.Resource.row,
      Row.project, List.lookup, ClinicGo.User.Scan, ClinicGo.User.row,
      ClinicGo.PatientAppointment.Scan, ClinicGo.PatientAppointment.row, ClinicGo.Drug.Scan,
      ClinicGo.Drug.row, ClinicGo.Patient.Scan, ClinicGo.Patient.row, ClinicGo.Doctor.Scan,
      ClinicGo.Doctor.row, ClinicGo.Transaction.Scan, ClinicGo.Transaction.row, bind,
      Except.bind, pure, Except.pure]

set_option maxHeartbeats 4000000 in
/-- Create then get-by-id in the clinic service: on a table that fits the resource and is keyed by id,
a create whose body binds answers 201 with the id the table assigns, and a
get-by-id whose path id is that id then answers 200 with a record that has this
id and, in its writable columns, the values of the body. -/
theorem clinic_create_then_get (formatTime : Time → String) (r : ClinicGo.Resource)
    (t : Table) (c : ClinicGo.Context r.Record) (now1 now2 : Time) (body : r.Record)
    (β : Type) (c2 : ClinicGo.Context β)
    (hfit : r.Fits formatTime t) (hk : t.Keyed) (hbind : c.Bind = .ok body)
    (hparam : Atoi (c2.Param "id") = .ok t.nextID) :
    ∃ created found : r.Record,
      ((ClinicGo.createHandler r c now1 now2).exec
          (ClinicGo.clinicDatabase formatTime r) t).1.resp
        = ⟨StatusCreated, .json (r.toJson created)⟩ ∧
      r.ID created = t.nextID ∧
      ((ClinicGo.getHandler r c2).exec (ClinicGo.clinicDatabase formatTime r)
          ((ClinicGo.createHandler r c now1 now2).exec
            (ClinicGo.clinicDatabase formatTime r) t).2.1).1.resp
        = ⟨StatusOK, .json (r.toJson found)⟩ ∧
      r.ID found = t.nextID ∧ r.written found = r.written body := by
  obtain ⟨hname, hcols, ⟨cd, hcd⟩, ⟨ud, hud⟩⟩ := hfit
  have h0 : 0 ≤ t.nextID := hk.2.2.1
  have h63 : t.nextID < 2 ^ 63 := hk.2.2.2
  have hu := uint_of_nonneg t.nextID h0 h63
  rcases c with ⟨Param, bind⟩
  cases r <;> simp only at hbind <;> subst hbind
  case users =>
    simp only [ClinicGo.Resource.table, ClinicGo.Resource.columns] at hname hcols
    have hins := insert_assigns_next_id t ["name", "email"]
      [.string body.Name, .string body.Email] hk rfl (by simp [hcols]) (by simp [List.lookup])
    have hfind := find_inserted t hk
      (("id", .int t.nextID) :: ["name", "email"].zip
        [.string body.Name, .string body.Email] ++ t.defaults) (by simp)
    refine ⟨({ body with ID := uint t.nextID } : ClinicGo.User),
      (⟨t.nextID.toNat, body.Name, body.Email, cd, ud⟩ : ClinicGo.User), ?_, ?_, ?_, ?_, ?_⟩
    · simp only [ClinicGo.createHandler, ClinicGo.createUser, exec_Exec, exec_done,
        ClinicGo.clinicDatabase, tableDatabase, Table.exec, hname, if_true, hins]
      rfl
    · simpa [ClinicGo.Resource.ID] using hu
    · simp only [ClinicGo.createHandler, ClinicGo.getHandler, ClinicGo.createUser,
        ClinicGo.getUser, hparam, exec_Exec, exec_QueryRow, exec_done,
        ClinicGo.clinicDatabase, tableDatabase, Table.exec, Table.queryRow, hname, if_true,
        hins, hfind]
      simp [hcols, Row.project, ClinicGo.Resource.Scan, ClinicGo.User.Scan,
        scanUint_int _ h0, hcd, hud, bind, Except.bind, pure, Except.pure, List.lookup,
        ClinicGo.Resource.toJson]
    · simp [ClinicGo.Resource.ID, h0]
    · simp [ClinicGo.Resource.written, ClinicGo.Resource.writable, ClinicGo.Resource.row,
        ClinicGo.User.row, List.lookup]
  case appointments =>
    simp only [ClinicGo.Resource.table, ClinicGo.Resource.columns] at hname hcols
    have hins := insert_assigns_next_id t ["patient_id", "user_id", "appointment_date", "notes",
      "prescription", "status"]
      [.uint body.PatientID, .int body.UserID, .string body.AppointmentDate, .string body.Notes,
        .string body.Prescription, .string body.Status] hk rfl (by simp [hcols]) (by simp
        [List.lookup])
    have hfind := find_inserted t hk
      (("id", .int t.nextID) :: ["patient_id", "user_id", "appointment_date", "notes",
        "prescription", "status"].zip
        [.uint body.PatientID, .int body.UserID, .string body.AppointmentDate, .string
          body.Notes, .string body.Prescription, .string body.Status] ++ t.defaults) (by simp)
    refine ⟨({ body with ID := uint t.nextID } : ClinicGo.PatientAppointment),
      (⟨t.nextID.toNat, body.PatientID, body.UserID, body.AppointmentDate, body.Notes,
        body.Prescription, body.Status, cd, ud⟩ : ClinicGo.PatientAppointment), ?_, ?_, ?_, ?_, ?_⟩
    · simp only [ClinicGo.createHandler, ClinicGo.createAppointment, exec_Exec, exec_done,
        ClinicGo.clinicDatabase, tableDatabase, Table.exec, hname, if_true, hins]
      rfl
    · simpa [ClinicGo.Resource.ID] using hu
    · simp only [ClinicGo.createHandler, ClinicGo.getHandler, ClinicGo.createAppointment,
        ClinicGo.getAppointment, hparam, exec_Exec, exec_QueryRow, exec_done,
        ClinicGo.clinicDatabase, tableDatabase, Table.exec, Table.queryRow, hname, if_true,
        hins, hfind]
      simp [hcols, Row.project, ClinicGo.Resource.Scan, ClinicGo.PatientAppointment.Scan,
        scanUint_int _ h0, hcd, hud, bind, Except.bind, pure, Except.pure, List.lookup,
        ClinicGo.Resource.toJson]
    · simp [ClinicGo.Resource.ID, h0]
    · simp [ClinicGo.Resource.written, ClinicGo.Resource.writable, ClinicGo.Resource.row,
        ClinicGo.PatientAppointment.row, List.lookup]
  case drugs =>
    simp only [ClinicGo.Resource.table, ClinicGo.Resource.columns] at hname hcols
    have hins := insert_assigns_next_id t ["drug_name", "drug_type", "description",
      "composition", "packaging", "dosage", "contraindications", "side_effects", "price",
      "currency", "expiration_date"]
      [.string body.DrugName, .string body.DrugType, .string body.Description, .string
        body.Composition, .string body.Packaging, .string body.Dosage, .string
        body.Contraindications, .string body.SideEffects, .float64 body.Price, .string
        body.Currency, .string body.ExpirationDate] hk rfl (by simp [hcols]) (by simp
        [List.lookup])
    have hfind := find_inserted t hk
      (("id", .int t.nextID) :: ["drug_name", "drug_type", "description", "composition",
        "packaging", "dosage", "contraindications", "side_effects", "price", "currency",
        "expiration_date"].zip
        [.string body.DrugName, .string body.DrugType, .string body.Description, .string
          body.Composition, .string body.Packaging, .string body.Dosage, .string
          body.Contraindications, .string body.SideEffects, .float64 body.Price, .string
          body.Currency, .string body.ExpirationDate] ++ t.defaults) (by simp)
    refine ⟨({ body with ID := uint t.nextID } : ClinicGo.Drug),
      (⟨t.nextID.toNat, body.DrugName, body.DrugType, body.Description, body.Composition,
        body.Packaging, body.Dosage, body.Contraindications, body.SideEffects, body.Price,
        body.Currency, body.ExpirationDate, cd, ud⟩ : ClinicGo.Drug), ?_, ?_, ?_, ?_, ?_⟩
    · simp only [ClinicGo.createHandler, ClinicGo.createDrug, exec_Exec, exec_done,
        ClinicGo.clinicDatabase, tableDatabase, Table.exec, hname, if_true, hins]
      rfl
    · simpa [ClinicGo.Resource.ID] using hu
    · simp only [ClinicGo.createHandler, ClinicGo.getHandler, ClinicGo.createDrug,
        ClinicGo.getDrug, hparam, exec_Exec, exec_QueryRow, exec_done,
        ClinicGo.clinicDatabase, tableDatabase, Table.exec, Table.queryRow, hname, if_true,
        hins, hfind]
      simp [hcols, Row.project, ClinicGo.Resource.Scan, ClinicGo.Drug.Scan,
        scanUint_int _ h0, hcd, hud, bind, Except.bind, pure, Except.pure, List.lookup,
        ClinicGo.Resource.toJson]
    · simp [ClinicGo.Resource.ID, h0]
    · simp [ClinicGo.Resource.written, ClinicGo.Resource.writable, ClinicGo.Resource.row,
        ClinicGo.Drug.row, List.lookup]
  case patients =>
    simp only [ClinicGo.Resource.table, ClinicGo.Resource.columns] at hname hcols
    have hins := insert_assigns_next_id t ["nik", "name", "gender", "date_of_birth", "address",
      "password"]
      [.string body.Nik, .string body.Name, .string body.Gender, .string body.DateOfBirth,
        .string body.Address, .string body.Password] hk rfl (by simp [hcols]) (by simp
        [List.lookup])
    have hfind := find_inserted t hk
      (("id", .int t.nextID) :: ["nik", "name", "gender", "date_of_birth", "address",
        "password"].zip
        [.string body.Nik, .string body.Name, .string body.Gender, .string body.DateOfBirth,
          .string body.Address, .string body.Password] ++ t.defaults) (by simp)
    refine ⟨({ body with ID := uint t.nextID } : ClinicGo.Patient),
      (⟨t.nextID.toNat, body.Nik, body.Name, body.Gender, body.DateOfBirth, body.Address,
        body.Password, cd, ud⟩ : ClinicGo.Patient), ?_, ?_, ?_, ?_, ?_⟩
    · simp only [ClinicGo.createHandler, ClinicGo.createPatient, exec_Exec, exec_done,
        ClinicGo.clinicDatabase, tableDatabase, Table.exec, hname, if_true, hins]
      rfl
    · simpa [ClinicGo.Resource.ID] using hu
    · simp only [ClinicGo.createHandler, ClinicGo.getHandler, ClinicGo.createPatient,
        ClinicGo.getPatient, hparam, exec_Exec, exec_QueryRow, exec_done,
        ClinicGo.clinicDatabase, tableDatabase, Table.exec, Table.queryRow, hname, if_true,
        hins, hfind]
      simp [hcols, Row.project, ClinicGo.Resource.Scan, ClinicGo.Patient.Scan,
        scanUint_int _ h0, hcd, hud, bind, Except.bind, pure, Except.pure, List.lookup,
        ClinicGo.Resource.toJson]
    · simp [ClinicGo.Resource.ID, h0]
    · simp [ClinicGo.Resource.written, ClinicGo.Resource.writable, ClinicGo.Resource.row,
        ClinicGo.Patient.row, List.lookup]
  case doctors =>
    simp only [ClinicGo.Resource.table, ClinicGo.Resource.columns] at hname hcols
    have hins := insert_assigns_next_id t ["user_id", "specialization", "created_at",
      "updated_at", "profile_photo_path"]
      [.int body.UserID, .string body.Specialization, .time now1, .time now2, .string
        body.ProfilePhotoPath] hk rfl (by simp [hcols]) (by simp [List.lookup])
    have hfind := find_inserted t hk
      (("id", .int t.nextID) :: ["user_id", "specialization", "created_at", "updated_at",
        "profile_photo_path"].zip
        [.int body.UserID, .string body.Specialization, .time now1, .time now2, .string
          body.ProfilePhotoPath] ++ t.defaults) (by simp)
    refine ⟨({ body with ID := t.nextID } : ClinicGo.Doctor),
      (⟨t.nextID, body.UserID, body.Specialization, formatTime now1, formatTime now2,
        body.ProfilePhotoPath⟩ : ClinicGo.Doctor), ?_, ?_, ?_, ?_, ?_⟩
    · simp only [ClinicGo.createHandler, ClinicGo.createDoctor, exec_Exec, exec_done,
        ClinicGo.clinicDatabase, tableDatabase, Table.exec, hname, if_true, hins]
      rfl
    · simp [ClinicGo.Resource.ID]
    · simp only [ClinicGo.createHandler, ClinicGo.getHandler, ClinicGo.createDoctor,
        ClinicGo.getDoctor, hparam, exec_Exec, exec_QueryRow, exec_done,
        ClinicGo.clinicDatabase, tableDatabase, Table.exec, Table.queryRow, hname, if_true,
        hins, hfind]
      simp [hcols, Row.project, ClinicGo.Resource.Scan, ClinicGo.Doctor.Scan,
        scanUint_int _ h0, hcd, hud, bind, Except.bind, pure, Except.pure, List.lookup,
        ClinicGo.Resource.toJson]
    · simp [ClinicGo.Resource.ID]
    · simp [ClinicGo.Resource.written, ClinicGo.Resource.writable, ClinicGo.Resource.row,
        ClinicGo.Doctor.row, List.lookup]
  case transactions =>
    simp only [ClinicGo.Resource.table, ClinicGo.Resource.columns] at hname hcols
    have hins := insert_assigns_next_id t ["patient_id", "drug_id", "quantity", "total_price",
      "currency", "prescription"]
      [.uint body.PatientID, .uint body.DrugID, .float64 body.Quantity, .float64
        body.TotalPrice, .string body.Currency, .string body.Prescription] hk rfl (by simp
        [hcols]) (by simp [List.lookup])
    have hfind := find_inserted t hk
      (("id", .int t.nextID) :: ["patient_id", "drug_id", "quantity", "total_price", "currency",
        "prescription"].zip
        [.uint body.PatientID, .uint body.DrugID, .float64 body.Quantity, .float64
          body.TotalPrice, .string body.Currency, .string body.Prescription] ++ t.defaults) (by
          simp)
    refine ⟨({ body with ID := uint t.nextID } : ClinicGo.Transaction),
      (⟨t.nextID.toNat, body.PatientID, body.DrugID, body.Quantity, body.TotalPrice,
        body.Currency, body.Prescription, cd, ud⟩ : ClinicGo.Transaction), ?_, ?_, ?_, ?_, ?_⟩
    · simp only [ClinicGo.createHandler, ClinicGo.createTransaction, exec_Exec, exec_done,
        ClinicGo.clinicDatabase, tableDatabase, Table.exec, hname, if_true, hins]
      rfl
    · simpa [ClinicGo.Resource.ID] using hu
    · simp only [ClinicGo.createHandler, ClinicGo.getHandler, ClinicGo.createTransaction,
        ClinicGo.getTransactionByID, hparam, exec_Exec, exec_QueryRow, exec_done,
        ClinicGo.clinicDatabase, tableDatabase, Table.exec, Table.queryRow, hname, if_true,
        hins, hfind]
      simp [hcols, Row.project, ClinicGo.Resource.Scan, ClinicGo.Transaction.Scan,
        scanUint_int _ h0, hcd, hud, bind, Except.bind, pure, Except.pure, List.lookup,
        ClinicGo.Resource.toJson]
    · simp [ClinicGo.Resource.ID, h0]
    · simp [ClinicGo.Resource.written, ClinicGo.Resource.writable, ClinicGo.Resource.row,
        ClinicGo.Transaction.row, List.lookup]

theorem insert_with_given_id (t : Table) (columns : List String) (args : List SqlArg)
    (id : SqlArg) (hlen : columns.length = args.length)
    (hcols : columns.all (fun col => col ∈ t.columns) = true)
    (hid : (columns.zip args).lookup "id" = some id)
    (hnew : t.rows.any (Row.has "id" id) = false) :
    t.insert columns args
      = (.ok ⟨(0, none), (1, none)⟩,
          { t with rows := t.rows ++ [columns.zip args ++ t.defaults] }) := by
  unfold Table.insert
  rw [if_neg (by simpa [hlen] using hcols)]
  simp [hid, hnew]

theorem find_appended (rows : List Row) (row : Row) (id : SqlArg)
    (hnew : rows.any (Row.has "id" id) = false) (hrow : row.lookup "id" = some id) :
    (rows ++ [row]).find? (Row.has "id" id) = some row := by
  have hnone : rows.find? (Row.has "id" id) = none := by
    rw [List.find?_eq_none]
    intro r hr hhas
    rw [List.any_eq_false] at hnew
    exact hnew r hr hhas
  simp [List.find?_append, hnone, Row.has, hrow]

theorem find_after_delete (rows : List Row) (w : String) (v : SqlArg) :
    (rows.filter fun row => !Row.has w v row).find? (Row.has w v) = none := by
  rw [List.find?_eq_none]
  intro row hrow
  simpa using (List.mem_filter.mp hrow).2

/-- Create then get-by-id in the person registry: on a table that fits it and has
no row with the id of the input, `createPersons` answers 201 and `getPersonById`
with that id then answers 200 with the input record. -/
theorem person_create_then_get (formatTime : Time → String) (t : Table)
    (p : MyProject.Context MyProject.person) (newPerson : MyProject.person) (β : Type)
    (p2 : MyProject.Context β) (hfit : MyProject.FitsPersons t)
    (hp : p.BindJSON = .ok newPerson)
    (hnew : t.rows.any (Row.has "id" (.string newPerson.ID)) = false)
    (hparam : p2.Param "id" = newPerson.ID) :
    ((MyProject.createPersons p).exec (MyProject.personsDatabase formatTime) t).1.resp
      = ⟨StatusCreated, .json newPerson.toJson⟩ ∧
    ((MyProject.getPersonById p2).exec (MyProject.personsDatabase formatTime)
        ((MyProject.createPersons p).exec (MyProject.personsDatabase formatTime) t).2.1).1.resp
      = ⟨StatusOK, .json newPerson.toJson⟩ := by
  obtain ⟨hname, hcols⟩ := hfit
  have hins := insert_with_given_id t ["id", "FullName", "age"]
    [.string newPerson.ID, .string newPerson.FullName, .int newPerson.Age]
    (.string newPerson.ID) rfl (by simp [hcols]) (by simp) hnew
  have hfind := find_appended t.rows
    (["id", "FullName", "age"].zip
      [.string newPerson.ID, .string newPerson.FullName, .int newPerson.Age] ++ t.defaults)
    (.string newPerson.ID) hnew (by simp)
  constructor
  · simp only [MyProject.createPersons, hp, exec_Exec, exec_done, MyProject.personsDatabase,
      tableDatabase, Table.exec, hname, if_true, hins]
    rfl
  · simp only [MyProject.createPersons, MyProject.getPersonById, hp, hparam, exec_Exec,
      exec_QueryRow, exec_done, MyProject.personsDatabase, tableDatabase, Table.exec,
      Table.queryRow, hname, if_true, hins, hfind]
    simp [hcols, Row.project, MyProject.person.Scan, bind, Except.bind, pure, Except.pure,
      List.lookup]

/-- C16: over tables keyed by id.  In the clinic service, on a table that fits the
resource, a create whose body binds answers 201 with the id the table assigns
and a get-by-id with that id then answers 200 with a record that has this id
and, in its writable columns, the values of the body.  In the person registry,
for an input whose id is not yet in the table, `createPersons` answers 201 and
`getPersonById` with the id of the input then answers 200 with the input
record. -/
theorem create_then_get (formatTime : Time → String) (r : ClinicGo.Resource)
    (t : Table) (c : ClinicGo.Context r.Record) (now1 now2 : Time) (body : r.Record)
    (β : Type) (c2 : ClinicGo.Context β) (pt : Table)
    (p : MyProject.Context MyProject.person) (newPerson : MyProject.person)
    (p2 : MyProject.Context β)
    (hfit : r.Fits formatTime t) (hk : t.Keyed) (hbind : c.Bind = .ok body)
    (hparam : Atoi (c2.Param "id") = .ok t.nextID)
    (hpfit : MyProject.FitsPersons pt) (hp : p.BindJSON = .ok newPerson)
    (hnew : pt.rows.any (Row.has "id" (.string newPerson.ID)) = false)
    (hpparam : p2.Param "id" = newPerson.ID) :
    (∃ created found : r.Record,
      ((ClinicGo.createHandler r c now1 now2).exec
          (ClinicGo.clinicDatabase formatTime r) t).1.resp
        = ⟨StatusCreated, .json (r.toJson created)⟩ ∧
      r.ID created = t.nextID ∧
      ((ClinicGo.getHandler r c2).exec (ClinicGo.clinicDatabase formatTime r)
          ((ClinicGo.createHandler r c now1 now2).exec
            (ClinicGo.clinicDatabase formatTime r) t).2.1).1.resp
        = ⟨StatusOK, .json (r.toJson found)⟩ ∧
      r.ID found = t.nextID ∧ r.written found = r.written body) ∧
    ((MyProject.createPersons p).exec (MyProject.personsDatabase formatTime) pt).1.resp
      = ⟨StatusCreated, .json newPerson.toJson⟩ ∧
    ((MyProject.getPersonById p2).exec (MyProject.personsDatabase formatTime)
        ((MyProject.createPersons p).exec
          (MyProject.personsDatabase formatTime) pt).2.1).1.resp
      = ⟨StatusOK, .json newPerson.toJson⟩ :=
  ⟨clinic_create_then_get formatTime r t c now1 now2 body β c2 hfit hk hbind hparam,
    person_create_then_get formatTime pt p newPerson β p2 hpfit hp hnew hpparam⟩

theorem usersTable_Keyed : usersTable.Keyed := by
  refine ⟨by decide, ?_, by decide, by decide⟩
  intro row hrow n hn
  simp only [usersTable, List.mem_singleton] at hrow
  subst hrow
  simp [List.lookup] at hn
  simp [usersTable, ← hn]

theorem usersTable_Fits (formatTime : Time → String) :
    ClinicGo.Resource.users.Fits formatTime usersTable :=
  ⟨rfl, rfl, ⟨_, rfl⟩, ⟨_, rfl⟩⟩

/-- Witness of C16: `POST /users` then `GET /users/8` on a table whose next id is
8, and `POST /persons` then `GET /persons/a` on a table without a person "a". -/
theorem create_then_get_witness :
    (∃ created found : ClinicGo.User,
      ((ClinicGo.createHandler .users ⟨fun _ => "", .ok ⟨0, "Ani", "ani@x.id", "", ""⟩⟩
          ⟨0⟩ ⟨0⟩).exec (ClinicGo.clinicDatabase (fun _ => "") .users) usersTable).1.resp
        = ⟨StatusCreated, .json (ClinicGo.Resource.users.toJson created)⟩ ∧
      ClinicGo.Resource.users.ID created = 8 ∧
      ((ClinicGo.getHandler .users (⟨fun _ => "8", .ok ()⟩ : ClinicGo.Context Unit)).exec
          (ClinicGo.clinicDatabase (fun _ => "") .users)
          ((ClinicGo.createHandler .users ⟨fun _ => "", .ok ⟨0, "Ani", "ani@x.id", "", ""⟩⟩
            ⟨0⟩ ⟨0⟩).exec (ClinicGo.clinicDatabase (fun _ => "") .users) usersTable).2.1).1.resp
        = ⟨StatusOK, .json (ClinicGo.Resource.users.toJson found)⟩ ∧
      ClinicGo.Resource.users.ID found = 8 ∧
      ClinicGo.Resource.users.written found
        = ClinicGo.Resource.users.written ⟨0, "Ani", "ani@x.id", "", ""⟩) ∧
    ((MyProject.createPersons ⟨fun _ => "", .ok ⟨"a", "Ani", 25⟩⟩).exec
        (MyProject.personsDatabase (fun _ => "")) personsTable).1.resp
      = ⟨StatusCreated, .json (MyProject.person.toJson ⟨"a", "Ani", 25⟩)⟩ ∧
    ((MyProject.getPersonById (⟨fun _ => "a", .ok ()⟩ : MyProject.Context Unit)).exec
        (MyProject.personsDatabase (fun _ => ""))
        ((MyProject.createPersons ⟨fun _ => "", .ok ⟨"a", "Ani", 25⟩⟩).exec
          (MyProject.personsDatabase (fun _ => "")) personsTable).2.1).1.resp
      = ⟨StatusOK, .json (MyProject.person.toJson ⟨"a", "Ani", 25⟩)⟩ :=
  create_then_get (fun _ => "") .users usersTable
    ⟨fun _ => "", .ok ⟨0, "Ani", "ani@x.id", "", ""⟩⟩ ⟨0⟩ ⟨0⟩ ⟨0, "Ani", "ani@x.id", "", ""⟩
    Unit ⟨fun _ => "8", .ok ()⟩ personsTable ⟨fun _ => "", .ok ⟨"a", "Ani", 25⟩⟩
    ⟨"a", "Ani", 25⟩ ⟨fun _ => "a", .ok ()⟩
    (usersTable_Fits _) usersTable_Keyed rfl (by decide) ⟨rfl, rfl⟩ rfl (by decide) rfl

theorem find_none_of_false (rows : List Row) : rows.find? (fun _ => false) = none := by
  induction rows with
  | nil => rfl
  | cons row rows ih => simp [List.find?, ih]

theorem queryRow_by_id {ρ : Type} (scan : List (Option SqlArg) → Except GoError ρ)
    (t : Table) (columns : List String) (v : SqlArg)
    (hall : ("id" :: columns).all (fun col => col ∈ t.columns) = true) :
    Table.queryRow scan t (.select columns t.name (some "id")) [v]
      = match t.rows.find? (Row.has "id" v) with
        | none => (.error .ErrNoRows, t)
        | some row => (scan (row.project columns), t) := by
  unfold Table.queryRow
  simp only [true_and, hall, if_true]

theorem exec_delete_by_id (t : Table) (v : SqlArg) (hid : "id" ∈ t.columns) :
    Table.exec t (.delete t.name "id") [v]
      = (.ok ⟨(0, none), ((t.rows.filter (Row.has "id" v)).length, none)⟩,
          { t with rows := t.rows.filter fun row => !Row.has "id" v row }) := by
  simp only [Table.exec, if_true, Table.delete, hid]

set_option maxHeartbeats 4000000 in
/-- C17: over tables keyed by id.  In the clinic service, on a table that fits the
resource, a delete with an integer path id answers with success (204 for
transactions, 200 for the other resources) and a get-by-id on the same id then
answers 404 with the entity's "not found" text.  In the person registry,
whatever `deletePerson` answers, a `getPersonById` on the same id then answers
404 "Person not found"; `deletePerson` itself answers 200 exactly when the table
had a row with that id. -/
theorem delete_then_get (formatTime : Time → String) (r : ClinicGo.Resource) (t : Table)
    (β : Type) (c : ClinicGo.Context β) (id : Int) (pt : Table) (pc : MyProject.Context β)
    (hfit : r.Fits formatTime t) (hid : Atoi (c.Param "id") = .ok id)
    (hpfit : MyProject.FitsPersons pt) :
    ((ClinicGo.deleteHandler r c).exec (ClinicGo.clinicDatabase formatTime r) t).1.resp.status
      = (if r = .transactions then StatusNoContent else StatusOK) ∧
    ((ClinicGo.getHandler r c).exec (ClinicGo.clinicDatabase formatTime r)
        ((ClinicGo.deleteHandler r c).exec (ClinicGo.clinicDatabase formatTime r) t).2.1).1.resp
      = ⟨StatusNotFound, .text (r.entity ++ " not found")⟩ ∧
    (((MyProject.deletePerson pc).exec (MyProject.personsDatabase formatTime) pt).1.resp.status
        = StatusOK ↔ pt.rows.any (Row.has "id" (.string (pc.Param "id"))) = true) ∧
    ((MyProject.getPersonById pc).exec (MyProject.personsDatabase formatTime)
        ((MyProject.deletePerson pc).exec (MyProject.personsDatabase formatTime) pt).2.1).1.resp
      = ⟨StatusNotFound, .json (MyProject.H "message" "Person not found")⟩ := by
  obtain ⟨hname, hcols, -, -⟩ := hfit
  obtain ⟨hpname, hpcols⟩ := hpfit
  refine ⟨?_, ?_, ?_, ?_⟩
  · cases r <;>
      simp [hid, ClinicGo.clinicDatabase, tableDatabase, Table.exec, Table.delete,
        ClinicGo.Resource.table, ClinicGo.Resource.columns, hname, hcols]
  · cases r <;>
      simp [hid, ClinicGo.clinicDatabase, tableDatabase, Table.exec, Table.delete,
        Table.queryRow, ClinicGo.Resource.table, ClinicGo.Resource.columns, hname, hcols,
        find_none_of_false, ClinicGo.Resource.entity]
  · rcases pt with ⟨pname, pcolumns, pdefaults, prows, pnext⟩
    simp only at hpname hpcols
    subst hpname hpcols
    have hcount : ((prows.filter (Row.has "id" (.string (pc.Param "id")))).length : Int) = 0
        ↔ ∀ row ∈ prows, Row.has "id" (.string (pc.Param "id")) row = false := by
      rw [Int.natCast_eq_zero, List.length_eq_zero, List.filter_eq_nil_iff]
      simp
    by_cases hany : ∀ row ∈ prows, Row.has "id" (.string (pc.Param "id")) row = false
    · have hnot : ¬ ∃ row ∈ prows, Row.has "id" (.string (pc.Param "id")) row = true := by
        rintro ⟨row, hrow, hhas⟩
        simp [hany row hrow] at hhas
      simp [MyProject.personsDatabase, tableDatabase, Table.exec, Table.delete, hcount.mpr hany,
        hnot]
    · have hex : ∃ row ∈ prows, Row.has "id" (.string (pc.Param "id")) row = true := by
        by_contra hno
        exact hany fun row hrow => by
          cases h : Row.has "id" (.string (pc.Param "id")) row
          · rfl
          · exact absurd ⟨row, hrow, h⟩ hno
      simp [MyProject.personsDatabase, tableDatabase, Table.exec, Table.delete,
        mt hcount.mp hany, hex]
  · have hdel := exec_delete_by_id pt (.string (pc.Param "id")) (by simp [hpcols])
    have hget := queryRow_by_id (MyProject.person.Scan formatTime)
      { pt with rows := pt.rows.filter fun row =>
          !Row.has "id" (.string (pc.Param "id")) row }
      ["id", "FullName", "age"] (.string (pc.Param "id")) (by simp [hpcols])
    rw [find_after_delete] at hget
    simp only [hpname] at hdel hget
    simp only [MyProject.deletePerson, MyProject.getPersonById, exec_Exec, exec_QueryRow,
      MyProject.personsDatabase, tableDatabase, hdel]
    split_ifs <;> simp only [exec_done, hget] <;> rfl

/-- Witness of C17: `DELETE /users/7` then `GET /users/7` on a table that holds
user 7, and `DELETE /persons/b` then `GET /persons/b` on a table that holds
person "b". -/
theorem delete_then_get_witness :
    ((ClinicGo.deleteHandler .users (⟨fun _ => "7", .ok ()⟩ : ClinicGo.Context Unit)).exec
        (ClinicGo.clinicDatabase (fun _ => "") .users) usersTable).1.resp.status
      = (if ClinicGo.Resource.users = .transactions then StatusNoContent else StatusOK) ∧
    ((ClinicGo.getHandler .users (⟨fun _ => "7", .ok ()⟩ : ClinicGo.Context Unit)).exec
        (ClinicGo.clinicDatabase (fun _ => "") .users)
        ((ClinicGo.deleteHandler .users (⟨fun _ => "7", .ok ()⟩ : ClinicGo.Context Unit)).exec
          (ClinicGo.clinicDatabase (fun _ => "") .users) usersTable).2.1).1.resp
      = ⟨StatusNotFound, .text (ClinicGo.Resource.users.entity ++ " not found")⟩ ∧
    (((MyProject.deletePerson (⟨fun _ => "b", .ok ()⟩ : MyProject.Context Unit)).exec
        (MyProject.personsDatabase (fun _ => "")) personsTable).1.resp.status = StatusOK
      ↔ personsTable.rows.any
          (Row.has "id" (.string ((⟨fun _ => "b", .ok ()⟩ : MyProject.Context Unit).Param "id")))
        = true) ∧
    ((MyProject.getPersonById (⟨fun _ => "b", .ok ()⟩ : MyProject.Context Unit)).exec
        (MyProject.personsDatabase (fun _ => ""))
        ((MyProject.deletePerson (⟨fun _ => "b", .ok ()⟩ : MyProject.Context Unit)).exec
          (MyProject.personsDatabase (fun _ => "")) personsTable).2.1).1.resp
      = ⟨StatusNotFound, .json (MyProject.H "message" "Person not found")⟩ :=
  delete_then_get (fun _ => "") .users usersTable Unit ⟨fun _ => "7", .ok ()⟩ 7 personsTable
    ⟨fun _ => "b", .ok ()⟩ (usersTable_Fits _) (by decide) ⟨rfl, rfl⟩

/-! ### The columns of the statements -/

/-- Counterexample to C18: the UPDATE of `updateDoctor` assigns `updated_at` and
not `created_at`, both of which the INSERT of `createDoctor` writes, and it binds
`updated_at` to the clock; the UPDATE of `updateAppointment` assigns the column
`doctor_id`, bound to the field `UserID` of the body, where the INSERT and the
SELECT have `user_id`. -/
theorem update_columns_differ_from_insert_columns :
    (ClinicGo.updateDoctor ⟨fun _ => "3", .ok ⟨0, 2, "Gigi", "", "", "a.png"⟩⟩ ⟨1700⟩).calls
        [.result (.ok ⟨(0, none), (1, none)⟩)]
      = some [(.update "doctors"
          ["user_id", "specialization", "profile_photo_path", "updated_at"] "id",
          [.int 2, .string "Gigi", .string "a.png", .time ⟨1700⟩, .int 3])] ∧
    (ClinicGo.createDoctor ⟨fun _ => "3", .ok ⟨0, 2, "Gigi", "", "", "a.png"⟩⟩
        ⟨1600⟩ ⟨1601⟩).calls [.result (.ok ⟨(3, none), (1, none)⟩)]
      = some [(.insert "doctors"
          ["user_id", "specialization", "created_at", "updated_at", "profile_photo_path"],
          [.int 2, .string "Gigi", .time ⟨1600⟩, .time ⟨1601⟩, .string "a.png"])] ∧
    (ClinicGo.updateAppointment
        ⟨fun _ => "3", .ok ⟨0, 11, 22, "2024-02-01", "n", "p", "open", "", ""⟩⟩).calls
        [.result (.ok ⟨(0, none), (1, none)⟩)]
      = some [(.update "patient_appointments"
          ["patient_id", "doctor_id", "appointment_date", "notes", "prescription", "status"]
          "id",
          [.uint 11, .int 22, .string "2024-02-01", .string "n", .string "p", .string "open",
            .int 3])] ∧
    (ClinicGo.createAppointment
        ⟨fun _ => "3", .ok ⟨0, 11, 22, "2024-02-01", "n", "p", "open", "", ""⟩⟩).calls
        [.result (.ok ⟨(3, none), (1, none)⟩)]
      = some [(.insert "patient_appointments"
          ["patient_id", "user_id", "appointment_date", "notes", "prescription", "status"],
          [.uint 11, .int 22, .string "2024-02-01", .string "n", .string "p",
            .string "open"])] ∧
    "doctor_id" ∉ ClinicGo.Resource.appointments.columns := by
  decide

set_option maxHeartbeats 4000000 in
/-- C18, amended: for users, drugs, patients and transactions, the UPDATE
statement assigns exactly the writable columns, the ones the INSERT statement
writes, binds each of them to the value of the corresponding field of the request
body, as the INSERT does, and every one of them is read back by the SELECT.  For
doctors, UPDATE and INSERT bind the writable columns `user_id`, `specialization`
and `profile_photo_path` to the fields of the body; the INSERT also writes
`created_at` and `updated_at`, the UPDATE also `updated_at`, from the clock. -/
theorem update_assigns_the_writable_columns (r : ClinicGo.Resource)
    (c : ClinicGo.Context r.Record) (now1 now2 now : Time) (id : Int) (body : r.Record)
    (a1 a2 : Except GoError Result)
    (hr : r ≠ .appointments) (hid : Atoi (c.Param "id") = .ok id)
    (hbind : c.Bind = .ok body) :
    ∃ icolumns ivalues ucolumns uvalues,
      (ClinicGo.createHandler r c now1 now2).calls [.result a1]
        = some [(.insert r.table icolumns, ivalues)] ∧
      (ClinicGo.updateHandler r c now).calls [.result a2]
        = some [(.update r.table ucolumns "id", uvalues ++ [.int id])] ∧
      icolumns.length = ivalues.length ∧ ucolumns.length = uvalues.length ∧
      (∀ col ∈ r.writable, col ∈ r.columns ∧
        (icolumns.zip ivalues).lookup col = (r.row body).lookup col ∧
        (ucolumns.zip uvalues).lookup col = (r.row body).lookup col) ∧
      (r ≠ .doctors → icolumns = r.writable ∧ ucolumns = r.writable) ∧
      (r = .doctors →
        icolumns = ["user_id", "specialization", "created_at", "updated_at",
          "profile_photo_path"] ∧
        ucolumns = ["user_id", "specialization", "profile_photo_path", "updated_at"] ∧
        (icolumns.zip ivalues).lookup "created_at" = some (.time now1) ∧
        (icolumns.zip ivalues).lookup "updated_at" = some (.time now2) ∧
        (ucolumns.zip uvalues).lookup "updated_at" = some (.time now)) := by
  rcases c with ⟨Param, bind⟩
  cases r <;> simp only at hbind hid <;> subst hbind
  case appointments => exact absurd rfl hr
  case users =>
    refine ⟨["name", "email"],
      [.string body.Name, .string body.Email],
      ["name", "email"],
      [.string body.Name, .string body.Email], ?_⟩
    rcases a1 with err1 | ⟨⟨lid, _ | lerr⟩, affected⟩ <;> cases a2 <;>
      simp [Action.calls, hid, ClinicGo.Resource.table, ClinicGo.Resource.writable,
        ClinicGo.Resource.columns, ClinicGo.Resource.row, ClinicGo.User.row, List.lookup]
  case drugs =>
    refine ⟨["drug_name", "drug_type", "description", "composition", "packaging", "dosage",
      "contraindications", "side_effects", "price", "currency", "expiration_date"],
      [.string body.DrugName, .string body.DrugType, .string body.Description, .string
        body.Composition, .string body.Packaging, .string body.Dosage, .string
        body.Contraindications, .string body.SideEffects, .float64 body.Price, .string
        body.Currency, .string body.ExpirationDate],
      ["drug_name", "drug_type", "description", "composition", "packaging", "dosage",
        "contraindications", "side_effects", "price", "currency", "expiration_date"],
      [.string body.DrugName, .string body.DrugType, .string body.Description, .string
        body.Composition, .string body.Packaging, .string body.Dosage, .string
        body.Contraindications, .string body.SideEffects, .float64 body.Price, .string
        body.Currency, .string body.ExpirationDate], ?_⟩
    rcases a1 with err1 | ⟨⟨lid, _ | lerr⟩, affected⟩ <;> cases a2 <;>
      simp [Action.calls, hid, ClinicGo.Resource.table, ClinicGo.Resource.writable,
        ClinicGo.Resource.columns, ClinicGo.Resource.row, ClinicGo.Drug.row, List.lookup]
  case patients =>
    refine ⟨["nik", "name", "gender", "date_of_birth", "address", "password"],
      [.string body.Nik, .string body.Name, .string body.Gender, .string body.DateOfBirth,
        .string body.Address, .string body.Password],
      ["nik", "name", "gender", "date_of_birth", "address", "password"],
      [.string body.Nik, .string body.Name, .string body.Gender, .string body.DateOfBirth,
        .string body.Address, .string body.Password], ?_⟩
    rcases a1 with err1 | ⟨⟨lid, _ | lerr⟩, affected⟩ <;> cases a2 <;>
      simp [Action.calls, hid, ClinicGo.Resource.table, ClinicGo.Resource.writable,
        ClinicGo.Resource.columns, ClinicGo.Resource.row, ClinicGo.Patient.row, List.lookup]
  case doctors =>
    refine ⟨["user_id", "specialization", "created_at", "updated_at", "profile_photo_path"],
      [.int body.UserID, .string body.Specialization, .time now1, .time now2, .string
        body.ProfilePhotoPath],
      ["user_id", "specialization", "profile_photo_path", "updated_at"],
      [.int body.UserID, .string body.Specialization, .string body.ProfilePhotoPath, .time now],
        ?_⟩
    rcases a1 with err1 | ⟨⟨lid, _ | lerr⟩, affected⟩ <;> cases a2 <;>
      simp [Action.calls, hid, ClinicGo.Resource.table, ClinicGo.Resource.writable,
        ClinicGo.Resource.columns, ClinicGo.Resource.row, ClinicGo.Doctor.row, List.lookup]
  case transactions =>
    refine ⟨["patient_id", "drug_id", "quantity", "total_price", "currency", "prescription"],
      [.uint body.PatientID, .uint body.DrugID, .float64 body.Quantity, .float64
        body.TotalPrice, .string body.Currency, .string body.Prescription],
      ["patient_id", "drug_id", "quantity", "total_price", "currency", "prescription"],
      [.uint body.PatientID, .uint body.DrugID, .float64 body.Quantity, .float64
        body.TotalPrice, .string body.Currency, .string body.Prescription], ?_⟩
    rcases a1 with err1 | ⟨⟨lid, _ | lerr⟩, affected⟩ <;> cases a2 <;>
      simp [Action.calls, hid, ClinicGo.Resource.table, ClinicGo.Resource.writable,
        ClinicGo.Resource.columns, ClinicGo.Resource.row, ClinicGo.Transaction.row, List.lookup]

/-- Witness of the amended C18: the statements of `POST /users` and of
`PUT /users/:id` with the path id 7. -/
theorem update_assigns_the_writable_columns_witness :
    ∃ icolumns ivalues ucolumns uvalues,
      (ClinicGo.createHandler .users ⟨fun _ => "7", .ok ⟨0, "Ani", "ani@x.id", "", ""⟩⟩
          ⟨0⟩ ⟨0⟩).calls [.result (.ok ⟨(7, none), (1, none)⟩)]
        = some [(.insert "users" icolumns, ivalues)] ∧
      (ClinicGo.updateHandler .users ⟨fun _ => "7", .ok ⟨0, "Ani", "ani@x.id", "", ""⟩⟩
          ⟨0⟩).calls [.result (.ok ⟨(0, none), (1, none)⟩)]
        = some [(.update "users" ucolumns "id", uvalues ++ [.int 7])] ∧
      icolumns = ["name", "email"] ∧ ucolumns = ["name", "email"] := by
  obtain ⟨icolumns, ivalues, ucolumns, uvalues, h1, h2, -, -, -, h3, -⟩ :=
    update_assigns_the_writable_columns .users
      ⟨fun _ => "7", .ok ⟨0, "Ani", "ani@x.id", "", ""⟩⟩ ⟨0⟩ ⟨0⟩ ⟨0⟩ 7
      ⟨0, "Ani", "ani@x.id", "", ""⟩ (.ok ⟨(7, none), (1, none)⟩)
      (.ok ⟨(0, none), (1, none)⟩) (by decide) (by decide) rfl
  exact ⟨icolumns, ivalues, ucolumns, uvalues, h1, h2, (h3 (by decide)).1,
    (h3 (by decide)).2⟩

/-- What the column `doctor_id` of `updateAppointment` leads to: on a table that
has the columns the INSERT and the SELECT of appointments use, the UPDATE is
refused, so that every update of an appointment whose path id and body are
accepted answers 500 and leaves the table as it was. -/
theorem updateAppointment_is_refused (formatTime : Time → String) (t : Table)
    (c : ClinicGo.Context ClinicGo.PatientAppointment) (id : Int)
    (body : ClinicGo.PatientAppointment)
    (hfit : ClinicGo.Resource.appointments.Fits formatTime t)
    (hid : Atoi (c.Param "id") = .ok id) (hbind : c.Bind = .ok body) :
    ((ClinicGo.updateAppointment c).exec
        (ClinicGo.clinicDatabase formatTime .appointments) t).1.resp
      = ⟨StatusInternalServerError, .text "Failed to update appointment"⟩ ∧
    ((ClinicGo.updateAppointment c).exec
        (ClinicGo.clinicDatabase formatTime .appointments) t).2.1 = t := by
  obtain ⟨hname, hcols, -, -⟩ := hfit
  simp only [ClinicGo.Resource.table, ClinicGo.Resource.columns] at hname hcols
  have hupd : t.update
      ["patient_id", "doctor_id", "appointment_date", "notes", "prescription", "status"] "id"
      [.uint body.PatientID, .int body.UserID, .string body.AppointmentDate,
        .string body.Notes, .string body.Prescription, .string body.Status, .int id]
      = (.error (.other "Error 1054: Unknown column"), t) := by
    unfold Table.update
    rw [if_pos (by simp [hcols])]
  constructor
  · simp only [ClinicGo.updateAppointment, hid, hbind, exec_Exec, exec_done,
      ClinicGo.clinicDatabase, tableDatabase, Table.exec, hname, if_true, hupd]
    rfl
  · simp only [ClinicGo.updateAppointment, hid, hbind, exec_Exec, exec_done,
      ClinicGo.clinicDatabase, tableDatabase, Table.exec, hname, if_true, hupd]

end RestApi
